import Mathlib

/-!
Verification of the Hurl HTML format-preserving renderer
(`packages/hurl_core/src/format/html.rs`) and of the to-float value coercion
filter (`packages/hurl/src/runner/filter/to_float.rs`).

Strings are modelled as `List Char` so that the character-level replacement
and escaping functions of the source can be reasoned about by structural
induction.  The formatter's output buffer is modelled as a list of fragments,
each fragment being either markup (the `<pre>`/`<code>`/`<span>` wrappers
pushed by `fmt_pre_open`, `fmt_span_open`, `fmt_span_close`, ...) or text
(everything else the formatter pushes).  Concatenating all fragments yields
exactly the string the Rust code builds; discarding the markup fragments is
the "stripping all markup tags" operation of the specification.
-/

namespace Hurl

/-- Strings as lists of characters. -/
abbrev Str := List Char

/-- One fragment pushed to the output buffer: either fixed markup (tag text)
or document text. -/
inductive Frag where
  | markup (s : Str)
  | text (s : Str)
deriving DecidableEq

/-- The raw string of a fragment. -/
def fragStr : Frag → Str
  | .markup s => s
  | .text s => s

/-- The full rendered output: concatenation of all fragments, markup
included.  This is the string held by the Rust formatter's buffer. -/
def renderFrags : List Frag → Str
  | [] => []
  | f :: r => fragStr f ++ renderFrags r

/-- The output with all markup tags stripped: concatenation of the text
fragments only. -/
def stripFrags : List Frag → Str
  | [] => []
  | .markup _ :: r => stripFrags r
  | .text s :: r => s ++ stripFrags r

/-- Replacement of every occurrence of the character `c` by the string `r`,
as Rust `str::replace` with a `char` pattern does. -/
def replaceChar (c : Char) (r : Str) : Str → Str
  | [] => []
  | x :: rest => (if x = c then r else [x]) ++ replaceChar c r rest

/-- `escape_xml` from `html.rs`: replace `&` by `&amp;`, then `<` by `&lt;`,
then `>` by `&gt;`. -/
def escape_xml (s : Str) : Str :=
  replaceChar '>' (("&gt;").data)
    (replaceChar '<' (("&lt;").data)
      (replaceChar '&' (("&amp;").data) s))

/-- `encode_html` from `html.rs`: replace `>` by `&gt;`, then `<` by
`&lt;` (no treatment of `&`). -/
def encode_html (s : Str) : Str :=
  replaceChar '<' (("&lt;").data) (replaceChar '>' (("&gt;").data) s)

/-- Modelled from the spec: the inverse of the escaping transform, namely
un-replacing the three entities `&amp;` / `&lt;` / `&gt;` (the spec's
"reversing only the escaping transform").  A single left-to-right scan that
rewrites each entity back to its character and copies everything else. -/
def unescape : Str → Str
  | '&' :: 'a' :: 'm' :: 'p' :: ';' :: r => '&' :: unescape r
  | '&' :: 'l' :: 't' :: ';' :: r => '<' :: unescape r
  | '&' :: 'g' :: 't' :: ';' :: r => '>' :: unescape r
  | c :: rest => c :: unescape rest
  | [] => []

/-- Per-character form of `escape_xml`, used to reason about it. -/
def esc1 (c : Char) : Str :=
  if c = '&' then ("&amp;").data
  else if c = '<' then ("&lt;").data
  else if c = '>' then ("&gt;").data
  else [c]

/-- Per-character expansion of the whole string. -/
def escMap : Str → Str
  | [] => []
  | c :: r => esc1 c ++ escMap r

/-- A string free of the ampersand character (Boolean form, decidable). -/
def ampFreeB (s : Str) : Bool :=
  s.all (fun c => !(c == '&'))

theorem replaceChar_append (c : Char) (r a b : Str) :
    replaceChar c r (a ++ b) = replaceChar c r a ++ replaceChar c r b := by
  induction a with
  | nil => rfl
  | cons x xs ih => simp [replaceChar, ih]

theorem escape_xml_eq_escMap (s : Str) : escape_xml s = escMap s := by
  induction s with
  | nil => rfl
  | cons c r ih =>
    by_cases h1 : c = '&'
    · subst h1
      simp only [escape_xml, replaceChar, escMap, esc1] at *
      simpa [replaceChar_append, replaceChar] using ih
    · by_cases h2 : c = '<'
      · subst h2
        simp only [escape_xml, replaceChar, escMap, esc1] at *
        simpa [replaceChar_append, replaceChar] using ih
      · by_cases h3 : c = '>'
        · subst h3
          simp only [escape_xml, replaceChar, escMap, esc1] at *
          simpa [replaceChar_append, replaceChar] using ih
        · simp only [escape_xml, replaceChar, escMap, esc1] at *
          simp [h1, h2, h3, replaceChar_append, replaceChar, ih]

example : escape_xml (("a&b<c>d").data) = ("a&amp;b&lt;c&gt;d").data := by decide
example : unescape (("a&amp;b&lt;c&gt;d").data) = ("a&b<c>d").data := by decide
example : unescape (("a&amp").data) = ("a&amp").data := by decide

theorem unescape_nil : unescape [] = [] := rfl

theorem unescape_amp (l : Str) :
    unescape ('&' :: 'a' :: 'm' :: 'p' :: ';' :: l) = '&' :: unescape l := rfl

theorem unescape_lt (l : Str) :
    unescape ('&' :: 'l' :: 't' :: ';' :: l) = '<' :: unescape l := rfl

theorem unescape_gt (l : Str) :
    unescape ('&' :: 'g' :: 't' :: ';' :: l) = '>' :: unescape l := rfl

theorem unescape_cons_ne (x : Char) (l : Str) (h : x ≠ '&') :
    unescape (x :: l) = x :: unescape l := by
  rw [unescape.eq_def]
  split
  · simp_all
  · simp_all
  · simp_all
  · simp_all
  · simp_all

/-- Propositional form of ampersand-freeness. -/
def AmpFree (s : Str) : Prop := ∀ c ∈ s, c ≠ '&'

theorem ampFreeB_iff (s : Str) : ampFreeB s = true ↔ AmpFree s := by
  simp [ampFreeB, AmpFree, List.all_eq_true]

instance ampFreeDecidable (s : Str) : Decidable (AmpFree s) :=
  decidable_of_iff (ampFreeB s = true) (ampFreeB_iff s)

theorem unescape_ampFree_append (s t : Str) (h : AmpFree s) :
    unescape (s ++ t) = s ++ unescape t := by
  induction s with
  | nil => rfl
  | cons x xs ih =>
    have hx : x ≠ '&' := h x (by simp)
    have hxs : AmpFree xs := fun c hc => h c (by simp [hc])
    simp [unescape_cons_ne x _ hx, ih hxs]

theorem unescape_escMap_append (s t : Str) :
    unescape (escMap s ++ t) = s ++ unescape t := by
  induction s with
  | nil => rfl
  | cons x xs ih =>
    by_cases h1 : x = '&'
    · subst h1
      simpa [escMap, esc1, unescape_amp] using ih
    · by_cases h2 : x = '<'
      · subst h2
        simpa [escMap, esc1, unescape_lt] using ih
      · by_cases h3 : x = '>'
        · subst h3
          simpa [escMap, esc1, unescape_gt] using ih
        · simp [escMap, esc1, h1, h2, h3, unescape_cons_ne x _ h1, ih]

theorem unescape_escape_xml_append (s t : Str) :
    unescape (escape_xml s ++ t) = s ++ unescape t := by
  rw [escape_xml_eq_escMap]
  exact unescape_escMap_append s t

theorem unescape_escape_xml (s : Str) : unescape (escape_xml s) = s := by
  have h := unescape_escape_xml_append s []
  simpa [unescape_nil] using h

/-- Per-character form of `encode_html`. -/
def enc1 (c : Char) : Str :=
  if c = '>' then ("&gt;").data
  else if c = '<' then ("&lt;").data
  else [c]

/-- Per-character expansion for `encode_html`. -/
def encMap : Str → Str
  | [] => []
  | c :: r => enc1 c ++ encMap r

theorem encode_html_eq_encMap (s : Str) : encode_html s = encMap s := by
  induction s with
  | nil => rfl
  | cons c r ih =>
    by_cases h1 : c = '>'
    · subst h1
      simp only [encode_html, replaceChar, encMap, enc1] at *
      simpa [replaceChar_append, replaceChar] using ih
    · by_cases h2 : c = '<'
      · subst h2
        simp only [encode_html, replaceChar, encMap, enc1] at *
        simpa [replaceChar_append, replaceChar] using ih
      · simp only [encode_html, replaceChar, encMap, enc1] at *
        simp [h1, h2, replaceChar_append, replaceChar, ih]

theorem unescape_encode_html_append (s t : Str) (h : AmpFree s) :
    unescape (encode_html s ++ t) = s ++ unescape t := by
  rw [encode_html_eq_encMap]
  induction s with
  | nil => rfl
  | cons x xs ih =>
    have hx : x ≠ '&' := h x (by simp)
    have hxs : AmpFree xs := fun c hc => h c (by simp [hc])
    by_cases h1 : x = '>'
    · subst h1
      simpa [encMap, enc1, unescape_gt] using ih hxs
    · by_cases h2 : x = '<'
      · subst h2
        simpa [encMap, enc1, unescape_lt] using ih hxs
      · simp [encMap, enc1, h1, h2, unescape_cons_ne x _ hx, ih hxs]

theorem stripFrags_append (a b : List Frag) :
    stripFrags (a ++ b) = stripFrags a ++ stripFrags b := by
  induction a with
  | nil => rfl
  | cons f r ih => cases f <;> simp [stripFrags, ih]

theorem renderFrags_append (a b : List Frag) :
    renderFrags (a ++ b) = renderFrags a ++ renderFrags b := by
  induction a with
  | nil => rfl
  | cons f r ih => cases f <;> simp [renderFrags, fragStr, ih]

/-- `Emits fr src` states that the text fragments of `fr`, in order,
reverse-escape to exactly `src`, robustly under any continuation: this is the
compositional form of the round-trip property. -/
def Emits (fr : List Frag) (src : Str) : Prop :=
  ∀ t : Str, unescape (stripFrags fr ++ t) = src ++ unescape t

theorem Emits.nil : Emits [] [] := by
  intro t
  simp [stripFrags]

theorem Emits.append {a b : List Frag} {s u : Str}
    (ha : Emits a s) (hb : Emits b u) : Emits (a ++ b) (s ++ u) := by
  intro t
  rw [stripFrags_append, List.append_assoc, ha, hb, List.append_assoc]

theorem Emits.markup (m : Str) : Emits [Frag.markup m] [] := by
  intro t
  simp [stripFrags]

theorem Emits.textEsc (s : Str) : Emits [Frag.text (escape_xml s)] s := by
  intro t
  simpa [stripFrags] using unescape_escape_xml_append s t

theorem Emits.textRaw {s : Str} (h : AmpFree s) : Emits [Frag.text s] s := by
  intro t
  simpa [stripFrags] using unescape_ampFree_append s t h

theorem Emits.textEnc {s : Str} (h : AmpFree s) :
    Emits [Frag.text (encode_html s)] s := by
  intro t
  simpa [stripFrags] using unescape_encode_html_append s t h

theorem Emits.out {fr : List Frag} {src : Str} (h : Emits fr src) :
    unescape (stripFrags fr) = src := by
  have := h []
  simpa [unescape_nil] using this

/-!
The document tree, following `hurl_core::ast` as consumed by the formatter.
Leaf values that the formatter only reads through their `to_source()` /
`to_string()` accessors (whose implementations live outside the rendered
file) are modelled as carrying those strings directly, per the spec's data
model: every literal value carries both its decoded value and its verbatim
source text.
-/

/-- A run of blanks; `value` is the literal source text. -/
structure Whitespace where
  value : Str
deriving DecidableEq

/-- A line comment; `value` is the unescaped text after the `#`. -/
structure Comment where
  value : Str
deriving DecidableEq

/-- Leading whitespace, optional comment, and the literal newline text
(possibly empty at end of input). -/
structure LineTerminator where
  space0 : Whitespace
  comment : Option Comment
  newline : Whitespace
deriving DecidableEq

/-- A template; `value` is the decoded text (Rust `Display`), `source` the
verbatim source text (Rust `ToSource`), per the spec's dual representation. -/
structure Template where
  value : Str
  source : Str
deriving DecidableEq

/-- An inline expression placeholder; `source` is its verbatim source text. -/
structure Placeholder where
  source : Str
deriving DecidableEq

/-- A regex literal; `source` is its verbatim source text. -/
structure Regex where
  source : Str
deriving DecidableEq

/-- A multiline string block; `source` is its verbatim source text. -/
structure MultilineString where
  source : Str
deriving DecidableEq

/-- A JSON value; `source` is its verbatim source text. -/
structure JsonValue where
  source : Str
deriving DecidableEq

/-- An AST number; `source` is its verbatim source text. -/
structure Number where
  source : Str
deriving DecidableEq

/-- A natural-number literal with its verbatim source text (Rust `U64`). -/
structure U64 where
  source : Str
deriving DecidableEq

/-- A duration unit (Rust `DurationUnit`). -/
inductive DurationUnit where
  | milliSecond
  | second
  | minute
deriving DecidableEq

/-- Display string of a duration unit. -/
def durationUnitString : DurationUnit → Str
  | .milliSecond => ("ms").data
  | .second => ("s").data
  | .minute => ("m").data

/-- A duration literal: value plus optional unit. -/
structure Duration where
  value : U64
  unit : Option DurationUnit
deriving DecidableEq

/-- Rust `BooleanOption`. -/
inductive BooleanOption where
  | literal (value : Bool)
  | placeholder (value : Placeholder)
deriving DecidableEq

/-- Rust `NaturalOption`. -/
inductive NaturalOption where
  | literal (value : U64)
  | placeholder (value : Placeholder)
deriving DecidableEq

/-- Rust `DurationOption`. -/
inductive DurationOption where
  | literal (value : Duration)
  | placeholder (value : Placeholder)
deriving DecidableEq

/-- Rust `Count` from `typing.rs`. -/
inductive Count where
  | finite (n : Nat)
  | infinite
deriving DecidableEq

/-- Rust `CountOption`. -/
inductive CountOption where
  | literal (value : Count)
  | placeholder (value : Placeholder)
deriving DecidableEq

/-- Rust `VariableValue`. -/
inductive VariableValue where
  | null
  | bool (v : Bool)
  | number (v : Number)
  | string (t : Template)
deriving DecidableEq

/-- Rust `VariableDefinition`. -/
structure VariableDefinition where
  name : Str
  space0 : Whitespace
  space1 : Whitespace
  value : VariableValue
deriving DecidableEq

/-- Rust `File`. -/
structure File where
  space0 : Whitespace
  filename : Template
  space1 : Whitespace
deriving DecidableEq

/-- Rust `Base64`; `source` is the verbatim base64 source text. -/
structure Base64 where
  space0 : Whitespace
  source : Str
  space1 : Whitespace
deriving DecidableEq

/-- Rust `Hex`; `source` is the verbatim hex source text. -/
structure Hex where
  space0 : Whitespace
  source : Str
  space1 : Whitespace
deriving DecidableEq

/-- Rust `KeyValue`. -/
structure KeyValue where
  line_terminators : List LineTerminator
  space0 : Whitespace
  key : Template
  space1 : Whitespace
  space2 : Whitespace
  value : Template
  line_terminator0 : LineTerminator
deriving DecidableEq

/-- Rust `Cookie`. -/
structure Cookie where
  line_terminators : List LineTerminator
  space0 : Whitespace
  name : Template
  space1 : Whitespace
  space2 : Whitespace
  value : Template
  line_terminator0 : LineTerminator
deriving DecidableEq

/-- Rust `CookieAttribute`; `name` carries the attribute name string
returned by `CookieAttributeName::value()`. -/
structure CookieAttribute where
  space0 : Whitespace
  name : Str
  space1 : Whitespace
deriving DecidableEq

/-- Rust `CookiePath`; `attr` is the optional `attribute` field. -/
structure CookiePath where
  name : Template
  attr : Option CookieAttribute
deriving DecidableEq

/-- Rust `CertificateAttributeName`. -/
inductive CertificateAttributeName where
  | subject
  | issuer
  | startDate
  | expireDate
  | serialNumber
deriving DecidableEq

/-- Modelled from the spec: the grammar's authoritative identifier strings
for certificate attribute names (`CertificateAttributeName::identifier`,
outside the rendered file). -/
def certificateAttributeNameIdentifier : CertificateAttributeName → Str
  | .subject => ("Subject").data
  | .issuer => ("Issuer").data
  | .startDate => ("Start-Date").data
  | .expireDate => ("Expire-Date").data
  | .serialNumber => ("Serial-Number").data

/-- Rust `RegexValue`. -/
inductive RegexValue where
  | template (t : Template)
  | regex (r : Regex)
deriving DecidableEq

/-- Rust `QueryValue`. -/
inductive QueryValue where
  | Header (space0 : Whitespace) (name : Template)
  | Cookie (space0 : Whitespace) (expr : CookiePath)
  | Xpath (space0 : Whitespace) (expr : Template)
  | Jsonpath (space0 : Whitespace) (expr : Template)
  | Regex (space0 : Whitespace) (value : RegexValue)
  | Variable (space0 : Whitespace) (name : Template)
  | Certificate (space0 : Whitespace) (attribute_name : CertificateAttributeName)
  | Status
  | Version
  | Url
  | Body
  | Duration
  | Bytes
  | Sha256
  | Md5
  | Ip
  | Redirects
deriving DecidableEq

/-- Modelled from the spec: the grammar's authoritative identifier strings
for query kinds (`QueryValue::identifier`, outside the rendered file). -/
def queryIdentifier : QueryValue → Str
  | .Header _ _ => ("header").data
  | .Cookie _ _ => ("cookie").data
  | .Xpath _ _ => ("xpath").data
  | .Jsonpath _ _ => ("jsonpath").data
  | .Regex _ _ => ("regex").data
  | .Variable _ _ => ("variable").data
  | .Certificate _ _ => ("certificate").data
  | .Status => ("status").data
  | .Version => ("version").data
  | .Url => ("url").data
  | .Body => ("body").data
  | .Duration => ("duration").data
  | .Bytes => ("bytes").data
  | .Sha256 => ("sha256").data
  | .Md5 => ("md5").data
  | .Ip => ("ip").data
  | .Redirects => ("redirects").data

/-- Rust `Query`. -/
structure Query where
  value : QueryValue
deriving DecidableEq

/-- Rust `FilterValue`. -/
inductive FilterValue where
  | Decode (space0 : Whitespace) (encoding : Template)
  | Format (space0 : Whitespace) (fmt : Template)
  | JsonPath (space0 : Whitespace) (expr : Template)
  | Nth (space0 : Whitespace) (n : U64)
  | Regex (space0 : Whitespace) (value : RegexValue)
  | Replace (space0 : Whitespace) (old_value : Template)
      (space1 : Whitespace) (new_value : Template)
  | ReplaceRegex (space0 : Whitespace) (pattern : RegexValue)
      (space1 : Whitespace) (new_value : Template)
  | Split (space0 : Whitespace) (sep : Template)
  | ToDate (space0 : Whitespace) (fmt : Template)
  | UrlQueryParam (space0 : Whitespace) (param : Template)
  | XPath (space0 : Whitespace) (expr : Template)
  | Base64Decode
  | Base64Encode
  | Base64UrlSafeDecode
  | Base64UrlSafeEncode
  | Count
  | DaysAfterNow
  | DaysBeforeNow
  | First
  | HtmlEscape
  | HtmlUnescape
  | Last
  | Location
  | ToFloat
  | ToHex
  | ToInt
  | ToString
  | UrlDecode
  | UrlEncode
deriving DecidableEq

/-- Modelled from the spec: the grammar's authoritative identifier strings
for filter kinds (`FilterValue::identifier`, outside the rendered file). -/
def filterIdentifier : FilterValue → Str
  | .Decode _ _ => ("decode").data
  | .Format _ _ => ("format").data
  | .JsonPath _ _ => ("jsonpath").data
  | .Nth _ _ => ("nth").data
  | .Regex _ _ => ("regex").data
  | .Replace _ _ _ _ => ("replace").data
  | .ReplaceRegex _ _ _ _ => ("replaceRegex").data
  | .Split _ _ => ("split").data
  | .ToDate _ _ => ("toDate").data
  | .UrlQueryParam _ _ => ("urlQueryParam").data
  | .XPath _ _ => ("xpath").data
  | .Base64Decode => ("base64Decode").data
  | .Base64Encode => ("base64Encode").data
  | .Base64UrlSafeDecode => ("base64UrlSafeDecode").data
  | .Base64UrlSafeEncode => ("base64UrlSafeEncode").data
  | .Count => ("count").data
  | .DaysAfterNow => ("daysAfterNow").data
  | .DaysBeforeNow => ("daysBeforeNow").data
  | .First => ("first").data
  | .HtmlEscape => ("htmlEscape").data
  | .HtmlUnescape => ("htmlUnescape").data
  | .Last => ("last").data
  | .Location => ("location").data
  | .ToFloat => ("toFloat").data
  | .ToHex => ("toHex").data
  | .ToInt => ("toInt").data
  | .ToString => ("toString").data
  | .UrlDecode => ("urlDecode").data
  | .UrlEncode => ("urlEncode").data

/-- Rust `Filter`. -/
structure Filter where
  value : FilterValue
deriving DecidableEq

/-- Rust `PredicateValue`. -/
inductive PredicateValue where
  | string (value : Template)
  | multilineString (value : MultilineString)
  | number (value : Number)
  | bool (value : Bool)
  | file (value : File)
  | hex (value : Hex)
  | base64 (value : Base64)
  | placeholder (value : Placeholder)
  | null
  | regex (value : Regex)
deriving DecidableEq

/-- Rust `PredicateFuncValue`. -/
inductive PredicateFuncValue where
  | Equal (space0 : Whitespace) (value : PredicateValue)
  | NotEqual (space0 : Whitespace) (value : PredicateValue)
  | GreaterThan (space0 : Whitespace) (value : PredicateValue)
  | GreaterThanOrEqual (space0 : Whitespace) (value : PredicateValue)
  | LessThan (space0 : Whitespace) (value : PredicateValue)
  | LessThanOrEqual (space0 : Whitespace) (value : PredicateValue)
  | StartWith (space0 : Whitespace) (value : PredicateValue)
  | EndWith (space0 : Whitespace) (value : PredicateValue)
  | Contain (space0 : Whitespace) (value : PredicateValue)
  | Include (space0 : Whitespace) (value : PredicateValue)
  | Match (space0 : Whitespace) (value : PredicateValue)
  | IsInteger
  | IsFloat
  | IsBoolean
  | IsString
  | IsCollection
  | IsDate
  | IsIsoDate
  | Exist
  | IsEmpty
  | IsNumber
  | IsIpv4
  | IsIpv6
deriving DecidableEq

/-- Modelled from the spec: the grammar's authoritative identifier strings
for predicate functions (`PredicateFuncValue::identifier`, outside the
rendered file); comparison operators use their operator spelling. -/
def predicateFuncIdentifier : PredicateFuncValue → Str
  | .Equal _ _ => ("==").data
  | .NotEqual _ _ => ("!=").data
  | .GreaterThan _ _ => (">").data
  | .GreaterThanOrEqual _ _ => (">=").data
  | .LessThan _ _ => ("<").data
  | .LessThanOrEqual _ _ => ("<=").data
  | .StartWith _ _ => ("startsWith").data
  | .EndWith _ _ => ("endsWith").data
  | .Contain _ _ => ("contains").data
  | .Include _ _ => ("includes").data
  | .Match _ _ => ("matches").data
  | .IsInteger => ("isInteger").data
  | .IsFloat => ("isFloat").data
  | .IsBoolean => ("isBoolean").data
  | .IsString => ("isString").data
  | .IsCollection => ("isCollection").data
  | .IsDate => ("isDate").data
  | .IsIsoDate => ("isIsoDate").data
  | .Exist => ("exists").data
  | .IsEmpty => ("isEmpty").data
  | .IsNumber => ("isNumber").data
  | .IsIpv4 => ("isIpv4").data
  | .IsIpv6 => ("isIpv6").data

/-- Rust `PredicateFunc`. -/
structure PredicateFunc where
  value : PredicateFuncValue
deriving DecidableEq

/-- Rust `Predicate`. -/
structure Predicate where
  not : Bool
  space0 : Whitespace
  predicate_func : PredicateFunc
deriving DecidableEq

/-- Rust `Assert`. -/
structure Assert where
  line_terminators : List LineTerminator
  space0 : Whitespace
  query : Query
  filters : List (Whitespace × Filter)
  space1 : Whitespace
  predicate : Predicate
  line_terminator0 : LineTerminator
deriving DecidableEq

/-- Rust `Capture`. -/
structure Capture where
  line_terminators : List LineTerminator
  space0 : Whitespace
  name : Template
  space1 : Whitespace
  space2 : Whitespace
  query : Query
  filters : List (Whitespace × Filter)
  space3 : Whitespace
  redact : Bool
  line_terminator0 : LineTerminator
deriving DecidableEq

/-- Rust `FilenameValue`. -/
structure FilenameValue where
  space0 : Whitespace
  filename : Template
  space1 : Whitespace
  space2 : Whitespace
  content_type : Option Template
deriving DecidableEq

/-- Rust `FilenameParam`. -/
structure FilenameParam where
  line_terminators : List LineTerminator
  space0 : Whitespace
  key : Template
  space1 : Whitespace
  space2 : Whitespace
  value : FilenameValue
  line_terminator0 : LineTerminator
deriving DecidableEq

/-- Rust `MultipartParam`. -/
inductive MultipartParam where
  | param (p : KeyValue)
  | filenameParam (p : FilenameParam)
deriving DecidableEq

/-- Rust `Bytes`. -/
inductive Bytes where
  | base64 (value : Base64)
  | file (value : File)
  | hex (value : Hex)
  | onelineString (value : Template)
  | json (value : JsonValue)
  | multilineString (value : MultilineString)
  | xml (value : Str)
deriving DecidableEq

/-- Rust `Body`. -/
structure Body where
  line_terminators : List LineTerminator
  space0 : Whitespace
  value : Bytes
  line_terminator0 : LineTerminator
deriving DecidableEq

/-- Rust `OptionKind`. -/
inductive OptionKind where
  | AwsSigV4 (value : Template)
  | CaCertificate (filename : Template)
  | ClientCert (filename : Template)
  | ClientKey (filename : Template)
  | Compressed (value : BooleanOption)
  | ConnectTo (value : Template)
  | ConnectTimeout (value : DurationOption)
  | Delay (value : DurationOption)
  | FollowLocation (value : BooleanOption)
  | FollowLocationTrusted (value : BooleanOption)
  | Header (value : Template)
  | Http10 (value : BooleanOption)
  | Http11 (value : BooleanOption)
  | Http2 (value : BooleanOption)
  | Http3 (value : BooleanOption)
  | Insecure (value : BooleanOption)
  | IpV4 (value : BooleanOption)
  | IpV6 (value : BooleanOption)
  | LimitRate (value : NaturalOption)
  | MaxRedirect (value : CountOption)
  | MaxTime (value : DurationOption)
  | NetRc (value : BooleanOption)
  | NetRcFile (filename : Template)
  | NetRcOptional (value : BooleanOption)
  | Output (filename : Template)
  | PathAsIs (value : BooleanOption)
  | PinnedPublicKey (value : Template)
  | Proxy (value : Template)
  | Repeat (value : CountOption)
  | Resolve (value : Template)
  | Retry (value : CountOption)
  | RetryInterval (value : DurationOption)
  | Skip (value : BooleanOption)
  | UnixSocket (value : Template)
  | User (value : Template)
  | Variable (value : VariableDefinition)
  | Verbose (value : BooleanOption)
  | VeryVerbose (value : BooleanOption)
deriving DecidableEq

/-- Modelled from the spec: the grammar's authoritative identifier strings
for option kinds (`OptionKind::identifier`, outside the rendered file). -/
def optionKindIdentifier : OptionKind → Str
  | .AwsSigV4 _ => ("aws-sigv4").data
  | .CaCertificate _ => ("cacert").data
  | .ClientCert _ => ("cert").data
  | .ClientKey _ => ("key").data
  | .Compressed _ => ("compressed").data
  | .ConnectTo _ => ("connect-to").data
  | .ConnectTimeout _ => ("connect-timeout").data
  | .Delay _ => ("delay").data
  | .FollowLocation _ => ("location").data
  | .FollowLocationTrusted _ => ("location-trusted").data
  | .Header _ => ("header").data
  | .Http10 _ => ("http1.0").data
  | .Http11 _ => ("http1.1").data
  | .Http2 _ => ("http2").data
  | .Http3 _ => ("http3").data
  | .Insecure _ => ("insecure").data
  | .IpV4 _ => ("ipv4").data
  | .IpV6 _ => ("ipv6").data
  | .LimitRate _ => ("limit-rate").data
  | .MaxRedirect _ => ("max-redirs").data
  | .MaxTime _ => ("max-time").data
  | .NetRc _ => ("netrc").data
  | .NetRcFile _ => ("netrc-file").data
  | .NetRcOptional _ => ("netrc-optional").data
  | .Output _ => ("output").data
  | .PathAsIs _ => ("path-as-is").data
  | .PinnedPublicKey _ => ("pinnedpubkey").data
  | .Proxy _ => ("proxy").data
  | .Repeat _ => ("repeat").data
  | .Resolve _ => ("resolve").data
  | .Retry _ => ("retry").data
  | .RetryInterval _ => ("retry-interval").data
  | .Skip _ => ("skip").data
  | .UnixSocket _ => ("unix-socket").data
  | .User _ => ("user").data
  | .Variable _ => ("variable").data
  | .Verbose _ => ("verbose").data
  | .VeryVerbose _ => ("very-verbose").data

/-- Rust `EntryOption`. -/
structure EntryOption where
  line_terminators : List LineTerminator
  space0 : Whitespace
  space1 : Whitespace
  space2 : Whitespace
  kind : OptionKind
  line_terminator0 : LineTerminator
deriving DecidableEq

/-- Rust `SectionValue`.  The boolean on the query/form/multipart variants
is the short-name flag carried by the AST. -/
inductive SectionValue where
  | Asserts (items : List Assert)
  | QueryParams (items : List KeyValue) (short : Bool)
  | BasicAuth (item : Option KeyValue)
  | FormParams (items : List KeyValue) (short : Bool)
  | MultipartFormData (items : List MultipartParam) (short : Bool)
  | Cookies (items : List Cookie)
  | Captures (items : List Capture)
  | Options (items : List EntryOption)
deriving DecidableEq

/-- Modelled from the spec: the section's own identifier accessor
(`Section::identifier`, outside the rendered file); the short-name flag
selects the abbreviated grammar spelling. -/
def sectionIdentifier : SectionValue → Str
  | .Asserts _ => ("Asserts").data
  | .QueryParams _ short =>
      if short then ("Query").data else ("QueryStringParams").data
  | .BasicAuth _ => ("BasicAuth").data
  | .FormParams _ short =>
      if short then ("Form").data else ("FormParams").data
  | .MultipartFormData _ short =>
      if short then ("Multipart").data else ("MultipartFormData").data
  | .Cookies _ => ("Cookies").data
  | .Captures _ => ("Captures").data
  | .Options _ => ("Options").data

/-- Rust `Section`. -/
structure Section where
  line_terminators : List LineTerminator
  space0 : Whitespace
  line_terminator0 : LineTerminator
  value : SectionValue
deriving DecidableEq

/-- Rust `Method`; the formatter renders its display string. -/
structure Method where
  value : Str
deriving DecidableEq

/-- Rust `Version`; `value` is the display string of `VersionValue`. -/
structure Version where
  value : Str
deriving DecidableEq

/-- Rust `Status`; `value` is the display string of `StatusValue`. -/
structure Status where
  value : Str
deriving DecidableEq

/-- Rust `Request`. -/
structure Request where
  line_terminators : List LineTerminator
  space0 : Whitespace
  method : Method
  space1 : Whitespace
  url : Template
  line_terminator0 : LineTerminator
  headers : List KeyValue
  sections : List Section
  body : Option Body
deriving DecidableEq

/-- Rust `Response`. -/
structure Response where
  line_terminators : List LineTerminator
  space0 : Whitespace
  version : Version
  space1 : Whitespace
  status : Status
  line_terminator0 : LineTerminator
  headers : List KeyValue
  sections : List Section
  body : Option Body
deriving DecidableEq

/-- Rust `Entry`. -/
structure Entry where
  request : Request
  response : Option Response
deriving DecidableEq

/-- Rust `HurlFile`. -/
structure HurlFile where
  entries : List Entry
  line_terminators : List LineTerminator
deriving DecidableEq

/-!
The formatter.  Each `fmt_*` function returns the list of fragments the
corresponding `HtmlFormatter` method pushes to the buffer, in push order;
sequential pushes become list concatenation.
-/

/-- Decimal digit character. -/
def digitChar (d : Nat) : Char :=
  match d with
  | 0 => '0'
  | 1 => '1'
  | 2 => '2'
  | 3 => '3'
  | 4 => '4'
  | 5 => '5'
  | 6 => '6'
  | 7 => '7'
  | 8 => '8'
  | _ => '9'

/-- Decimal digits of a natural number (fuelled, kernel-reducible); models
the Rust `Display` of an unsigned integer. -/
def natReprAux : Nat → Nat → Str
  | 0, _ => []
  | fuel + 1, n =>
      if n < 10 then [digitChar n]
      else natReprAux fuel (n / 10) ++ [digitChar (n % 10)]

/-- Decimal display of a natural number. -/
def natRepr (n : Nat) : Str := natReprAux (n + 1) n

/-- Emission over each element of a list in order (`iter().for_each`). -/
def emitAll {α : Type} (f : α → List Frag) : List α → List Frag
  | [] => []
  | x :: r => f x ++ emitAll f r

/-- Display string of a Rust `bool`. -/
def boolString (b : Bool) : Str :=
  if b then ("true").data else ("false").data

def fmt_pre_open (cls : Str) : List Frag :=
  [Frag.markup ((("<pre><code class=\"").data) ++ cls ++ (("\">").data))]

def fmt_pre_close : List Frag :=
  [Frag.markup (("</code></pre>").data)]

def fmt_span_open (cls : Str) : List Frag :=
  [Frag.markup ((("<span class=\"").data) ++ cls ++ (("\">").data))]

def fmt_span_close : List Frag :=
  [Frag.markup (("</span>").data)]

def fmt_span (cls value : Str) : List Frag :=
  fmt_span_open cls ++ [Frag.text value] ++ fmt_span_close

def fmt_space (space : Whitespace) : List Frag :=
  if space.value = [] then [] else [Frag.text space.value]

def fmt_comment (comment : Comment) : List Frag :=
  fmt_span (("comment").data) ('#' :: escape_xml comment.value)

def fmt_lt (lt : LineTerminator) : List Frag :=
  fmt_space lt.space0 ++
    (match lt.comment with
      | some v => fmt_comment v
      | none => []) ++
    [Frag.text lt.newline.value]

def fmt_lts (line_terminators : List LineTerminator) : List Frag :=
  emitAll
    (fun lt =>
      fmt_space lt.space0 ++
        (match lt.comment with
          | some v => fmt_comment v
          | none => []) ++
        (if lt.newline.value = [] then [] else [Frag.text lt.newline.value]))
    line_terminators

def fmt_string (value : Str) : List Frag :=
  fmt_span (("string").data) value

def fmt_bool (value : Bool) : List Frag :=
  fmt_span (("boolean").data) (boolString value)

def fmt_number (value : Str) : List Frag :=
  fmt_span (("number").data) value

def fmt_xml (value : Str) : List Frag :=
  fmt_span (("xml").data) (escape_xml value)

def fmt_json_value (json_value : JsonValue) : List Frag :=
  fmt_span (("json").data) (escape_xml json_value.source)

def fmt_multiline_string (multiline_string : MultilineString) : List Frag :=
  fmt_span (("multiline").data) (escape_xml multiline_string.source)

def fmt_template (template : Template) : List Frag :=
  fmt_string (escape_xml template.source)

def fmt_placeholder (placeholder : Placeholder) : List Frag :=
  fmt_span (("expr").data) placeholder.source

def fmt_regex (regex : Regex) : List Frag :=
  fmt_span (("regex").data) regex.source

def fmt_filename (filename : Template) : List Frag :=
  fmt_span_open (("filename").data) ++
    [Frag.text (replaceChar ' ' (("\\ ").data) filename.value)] ++
    fmt_span_close

def fmt_base64 (base64 : Base64) : List Frag :=
  [Frag.text (("base64,").data)] ++ fmt_space base64.space0 ++
    fmt_span (("base64").data) base64.source ++ fmt_space base64.space1 ++
    [Frag.text [';']]

def fmt_hex (hex : Hex) : List Frag :=
  [Frag.text (("hex,").data)] ++ fmt_space hex.space0 ++
    fmt_span (("hex").data) hex.source ++ fmt_space hex.space1 ++
    [Frag.text [';']]

def fmt_file (file : File) : List Frag :=
  [Frag.text (("file,").data)] ++ fmt_space file.space0 ++
    fmt_filename file.filename ++ fmt_space file.space1 ++ [Frag.text [';']]

def fmt_bool_option (value : BooleanOption) : List Frag :=
  match value with
  | .literal v => fmt_span (("boolean").data) (boolString v)
  | .placeholder v => fmt_placeholder v

def fmt_natural_option (value : NaturalOption) : List Frag :=
  match value with
  | .literal v => fmt_span (("number").data) v.source
  | .placeholder v => fmt_placeholder v

def fmt_duration_option (value : DurationOption) : List Frag :=
  match value with
  | .literal literal =>
      fmt_span (("number").data) literal.value.source ++
        (match literal.unit with
          | some unit => fmt_span (("unit").data) (durationUnitString unit)
          | none => [])
  | .placeholder v => fmt_placeholder v

def fmt_count (count : Count) : List Frag :=
  match count with
  | .finite n => fmt_number (natRepr n)
  | .infinite => fmt_number (("-1").data)

def fmt_count_option (count_option : CountOption) : List Frag :=
  match count_option with
  | .literal repeatCount => fmt_count repeatCount
  | .placeholder placeholder => fmt_placeholder placeholder

def fmt_variable_value (option : VariableValue) : List Frag :=
  match option with
  | .null => fmt_span (("null").data) (("null").data)
  | .bool v => fmt_bool v
  | .number v => fmt_number v.source
  | .string t => fmt_template t

def fmt_variable_definition (option : VariableDefinition) : List Frag :=
  [Frag.text option.name] ++ fmt_space option.space0 ++ [Frag.text ['=']] ++
    fmt_space option.space1 ++ fmt_variable_value option.value

def fmt_cookie_attribute (cookie_attribute : CookieAttribute) : List Frag :=
  fmt_space cookie_attribute.space0 ++ [Frag.text cookie_attribute.name] ++
    fmt_space cookie_attribute.space1

def fmt_cookie_path (cookie_path : CookiePath) : List Frag :=
  fmt_span_open (("string").data) ++ [Frag.text ['"']] ++
    [Frag.text cookie_path.name.source] ++
    (match cookie_path.attr with
      | some attr =>
          [Frag.text ['[']] ++ fmt_cookie_attribute attr ++ [Frag.text [']']]
      | none => []) ++
    [Frag.text ['"']] ++ fmt_span_close

def fmt_certificate_attribute_name (name : CertificateAttributeName) :
    List Frag :=
  fmt_span_open (("string").data) ++ [Frag.text ['"']] ++
    [Frag.text (certificateAttributeNameIdentifier name)] ++
    [Frag.text ['"']] ++ fmt_span_close

def fmt_regex_value (regex_value : RegexValue) : List Frag :=
  match regex_value with
  | .template template => fmt_template template
  | .regex regex => fmt_regex regex

def fmt_query_value (query_value : QueryValue) : List Frag :=
  fmt_span (("query-type").data) (queryIdentifier query_value) ++
    (match query_value with
      | .Header space0 name => fmt_space space0 ++ fmt_template name
      | .Cookie space0 expr => fmt_space space0 ++ fmt_cookie_path expr
      | .Xpath space0 expr => fmt_space space0 ++ fmt_template expr
      | .Jsonpath space0 expr => fmt_space space0 ++ fmt_template expr
      | .Regex space0 value => fmt_space space0 ++ fmt_regex_value value
      | .Variable space0 name => fmt_space space0 ++ fmt_template name
      | .Certificate space0 field =>
          fmt_space space0 ++ fmt_certificate_attribute_name field
      | .Status => []
      | .Version => []
      | .Url => []
      | .Body => []
      | .Duration => []
      | .Bytes => []
      | .Sha256 => []
      | .Md5 => []
      | .Ip => []
      | .Redirects => [])

def fmt_query (query : Query) : List Frag :=
  fmt_query_value query.value

def fmt_filter_value (filter_value : FilterValue) : List Frag :=
  fmt_span (("filter-type").data) (filterIdentifier filter_value) ++
    (match filter_value with
      | .Decode space0 encoding => fmt_space space0 ++ fmt_template encoding
      | .Format space0 fmt => fmt_space space0 ++ fmt_template fmt
      | .JsonPath space0 expr => fmt_space space0 ++ fmt_template expr
      | .Nth space0 value => fmt_space space0 ++ fmt_number value.source
      | .Regex space0 value => fmt_space space0 ++ fmt_regex_value value
      | .Replace space0 old_value space1 new_value =>
          fmt_space space0 ++ fmt_template old_value ++ fmt_space space1 ++
            fmt_template new_value
      | .ReplaceRegex space0 pattern space1 new_value =>
          fmt_space space0 ++ fmt_regex_value pattern ++ fmt_space space1 ++
            fmt_template new_value
      | .Split space0 sep => fmt_space space0 ++ fmt_template sep
      | .ToDate space0 fmt => fmt_space space0 ++ fmt_template fmt
      | .UrlQueryParam space0 param => fmt_space space0 ++ fmt_template param
      | .XPath space0 expr => fmt_space space0 ++ fmt_template expr
      | _ => [])

def fmt_filter (filter : Filter) : List Frag :=
  fmt_filter_value filter.value

def fmt_predicate_value (predicate_value : PredicateValue) : List Frag :=
  match predicate_value with
  | .string value => fmt_template value
  | .multilineString value => fmt_multiline_string value
  | .number value => fmt_number value.source
  | .bool value => fmt_bool value
  | .file value => fmt_file value
  | .hex value => fmt_hex value
  | .base64 value => fmt_base64 value
  | .placeholder value => fmt_placeholder value
  | .null => fmt_span (("null").data) (("null").data)
  | .regex value => fmt_regex value

def fmt_predicate_func_value (value : PredicateFuncValue) : List Frag :=
  fmt_span_open (("predicate-type").data) ++
    [Frag.text (encode_html (predicateFuncIdentifier value))] ++
    fmt_span_close ++
    (match value with
      | .Equal space0 v => fmt_space space0 ++ fmt_predicate_value v
      | .NotEqual space0 v => fmt_space space0 ++ fmt_predicate_value v
      | .GreaterThan space0 v => fmt_space space0 ++ fmt_predicate_value v
      | .GreaterThanOrEqual space0 v =>
          fmt_space space0 ++ fmt_predicate_value v
      | .LessThan space0 v => fmt_space space0 ++ fmt_predicate_value v
      | .LessThanOrEqual space0 v => fmt_space space0 ++ fmt_predicate_value v
      | .StartWith space0 v => fmt_space space0 ++ fmt_predicate_value v
      | .EndWith space0 v => fmt_space space0 ++ fmt_predicate_value v
      | .Contain space0 v => fmt_space space0 ++ fmt_predicate_value v
      | .Include space0 v => fmt_space space0 ++ fmt_predicate_value v
      | .Match space0 v => fmt_space space0 ++ fmt_predicate_value v
      | _ => [])

def fmt_predicate_func (predicate_func : PredicateFunc) : List Frag :=
  fmt_predicate_func_value predicate_func.value

def fmt_predicate (predicate : Predicate) : List Frag :=
  (if predicate.not then
      fmt_span (("not").data) (("not").data) ++ fmt_space predicate.space0
    else []) ++
    fmt_predicate_func predicate.predicate_func

def fmt_assert (assert : Assert) : List Frag :=
  fmt_lts assert.line_terminators ++ fmt_space assert.space0 ++
    fmt_query assert.query ++
    emitAll (fun sf => fmt_space sf.1 ++ fmt_filter sf.2) assert.filters ++
    fmt_space assert.space1 ++ fmt_predicate assert.predicate ++
    fmt_lt assert.line_terminator0

def fmt_capture (capture : Capture) : List Frag :=
  fmt_lts capture.line_terminators ++ fmt_space capture.space0 ++
    fmt_template capture.name ++ fmt_space capture.space1 ++
    [Frag.text [':']] ++ fmt_space capture.space2 ++
    fmt_query capture.query ++
    emitAll (fun sf => fmt_space sf.1 ++ fmt_filter sf.2) capture.filters ++
    fmt_space capture.space3 ++
    (if capture.redact then fmt_string (("redact").data) else []) ++
    fmt_lt capture.line_terminator0

def fmt_cookie (cookie : Cookie) : List Frag :=
  fmt_lts cookie.line_terminators ++ fmt_space cookie.space0 ++
    fmt_template cookie.name ++ fmt_space cookie.space1 ++
    [Frag.text [':']] ++ fmt_space cookie.space2 ++
    fmt_template cookie.value ++ fmt_lt cookie.line_terminator0

def fmt_kv (kv : KeyValue) : List Frag :=
  fmt_lts kv.line_terminators ++ fmt_space kv.space0 ++
    fmt_template kv.key ++ fmt_space kv.space1 ++ [Frag.text [':']] ++
    fmt_space kv.space2 ++ fmt_template kv.value ++
    fmt_lt kv.line_terminator0

def fmt_file_value (file_value : FilenameValue) : List Frag :=
  [Frag.text (("file,").data)] ++ fmt_space file_value.space0 ++
    fmt_filename file_value.filename ++ fmt_space file_value.space1 ++
    [Frag.text [';']] ++ fmt_space file_value.space2 ++
    (match file_value.content_type with
      | some content_type => fmt_template content_type
      | none => [])

def fmt_file_param (param : FilenameParam) : List Frag :=
  fmt_lts param.line_terminators ++ fmt_space param.space0 ++
    fmt_template param.key ++ fmt_space param.space1 ++ [Frag.text [':']] ++
    fmt_space param.space2 ++ fmt_file_value param.value ++
    fmt_lt param.line_terminator0

def fmt_multipart_param (param : MultipartParam) : List Frag :=
  match param with
  | .param p => fmt_kv p
  | .filenameParam p => fmt_file_param p

/-- The per-kind value dispatch of `fmt_entry_option` (the `match` block on
`option.kind` in the source). -/
def fmt_option_kind_value (kind : OptionKind) : List Frag :=
  match kind with
  | .AwsSigV4 value => fmt_template value
  | .CaCertificate filename => fmt_filename filename
  | .ClientCert filename => fmt_filename filename
  | .ClientKey filename => fmt_filename filename
  | .Compressed value => fmt_bool_option value
  | .ConnectTo value => fmt_template value
  | .ConnectTimeout value => fmt_duration_option value
  | .Delay value => fmt_duration_option value
  | .FollowLocation value => fmt_bool_option value
  | .FollowLocationTrusted value => fmt_bool_option value
  | .Header value => fmt_template value
  | .Http10 value => fmt_bool_option value
  | .Http11 value => fmt_bool_option value
  | .Http2 value => fmt_bool_option value
  | .Http3 value => fmt_bool_option value
  | .Insecure value => fmt_bool_option value
  | .IpV4 value => fmt_bool_option value
  | .IpV6 value => fmt_bool_option value
  | .LimitRate value => fmt_natural_option value
  | .MaxRedirect value => fmt_count_option value
  | .MaxTime value => fmt_duration_option value
  | .NetRc value => fmt_bool_option value
  | .NetRcFile filename => fmt_filename filename
  | .NetRcOptional value => fmt_bool_option value
  | .Output filename => fmt_filename filename
  | .PathAsIs value => fmt_bool_option value
  | .PinnedPublicKey value => fmt_template value
  | .Proxy value => fmt_template value
  | .Repeat value => fmt_count_option value
  | .Resolve value => fmt_template value
  | .Retry value => fmt_count_option value
  | .RetryInterval value => fmt_duration_option value
  | .Skip value => fmt_bool_option value
  | .UnixSocket value => fmt_filename value
  | .User value => fmt_template value
  | .Variable value => fmt_variable_definition value
  | .Verbose value => fmt_bool_option value
  | .VeryVerbose value => fmt_bool_option value

def fmt_entry_option (option : EntryOption) : List Frag :=
  fmt_lts option.line_terminators ++ fmt_space option.space0 ++
    fmt_string (optionKindIdentifier option.kind) ++
    fmt_space option.space1 ++ [Frag.text [':']] ++
    fmt_space option.space2 ++ fmt_option_kind_value option.kind ++
    fmt_lt option.line_terminator0

def fmt_section_value (section_value : SectionValue) : List Frag :=
  match section_value with
  | .Asserts items => emitAll fmt_assert items
  | .QueryParams items _ => emitAll fmt_kv items
  | .BasicAuth item =>
      (match item with
        | some kv => fmt_kv kv
        | none => [])
  | .FormParams items _ => emitAll fmt_kv items
  | .MultipartFormData items _ => emitAll fmt_multipart_param items
  | .Cookies items => emitAll fmt_cookie items
  | .Captures items => emitAll fmt_capture items
  | .Options items => emitAll fmt_entry_option items

def fmt_section (sec : Section) : List Frag :=
  fmt_lts sec.line_terminators ++ fmt_space sec.space0 ++
    fmt_span (("section-header").data)
      ('[' :: sectionIdentifier sec.value ++ [']']) ++
    fmt_lt sec.line_terminator0 ++ fmt_section_value sec.value

def fmt_method (method : Method) : List Frag :=
  fmt_span (("method").data) method.value

def fmt_version (version : Version) : List Frag :=
  fmt_span (("version").data) version.value

def fmt_status (status : Status) : List Frag :=
  fmt_number status.value

def fmt_bytes (bytes : Bytes) : List Frag :=
  match bytes with
  | .base64 value => fmt_base64 value
  | .file value => fmt_file value
  | .hex value => fmt_hex value
  | .onelineString value => fmt_template value
  | .json value => fmt_json_value value
  | .multilineString value => fmt_multiline_string value
  | .xml value => fmt_xml value

def fmt_body (body : Body) : List Frag :=
  fmt_lts body.line_terminators ++ fmt_space body.space0 ++
    fmt_bytes body.value ++
    fmt_space body.line_terminator0.space0 ++
    (match body.line_terminator0.comment with
      | some v => fmt_comment v
      | none => []) ++
    [Frag.text body.line_terminator0.newline.value]

def fmt_request (request : Request) : List Frag :=
  fmt_span_open (("request").data) ++
    fmt_lts request.line_terminators ++ fmt_space request.space0 ++
    fmt_method request.method ++ fmt_space request.space1 ++
    fmt_span (("url").data) (escape_xml request.url.source) ++
    fmt_lt request.line_terminator0 ++
    emitAll fmt_kv request.headers ++
    emitAll fmt_section request.sections ++
    (match request.body with
      | some body => fmt_body body
      | none => []) ++
    fmt_span_close

def fmt_response (response : Response) : List Frag :=
  fmt_span_open (("response").data) ++
    fmt_lts response.line_terminators ++ fmt_space response.space0 ++
    fmt_version response.version ++ fmt_space response.space1 ++
    fmt_status response.status ++ fmt_lt response.line_terminator0 ++
    emitAll fmt_kv response.headers ++
    emitAll fmt_section response.sections ++
    (match response.body with
      | some body => fmt_body body
      | none => []) ++
    fmt_span_close

def fmt_entry (entry : Entry) : List Frag :=
  fmt_span_open (("entry").data) ++
    fmt_request entry.request ++
    (match entry.response with
      | some response => fmt_response response
      | none => []) ++
    fmt_span_close

def fmt_hurl_file (hurl_file : HurlFile) : List Frag :=
  fmt_pre_open (("language-hurl").data) ++
    emitAll fmt_entry hurl_file.entries ++
    fmt_lts hurl_file.line_terminators ++
    fmt_pre_close

/-!
Original source text of each node.  Modelled from the spec: the `ToSource`
implementations live outside the rendered file; per the spec's data model
(§3) and traversal order (§4.3), a node's source is the concatenation, in
physical order, of its children's verbatim source fragments.
-/

/-- Modelled from the spec: source of a line terminator (leading blanks,
optional `#`-comment, literal newline). -/
def ltToSource (lt : LineTerminator) : Str :=
  lt.space0.value ++
    (match lt.comment with
      | some c => '#' :: c.value
      | none => []) ++
    lt.newline.value

/-- Source concatenation over a list. -/
def srcAll {α : Type} (f : α → Str) : List α → Str
  | [] => []
  | x :: r => f x ++ srcAll f r

/-- Modelled from the spec: source of a sequence of line terminators. -/
def ltsToSource (lts : List LineTerminator) : Str :=
  srcAll ltToSource lts

/-- Modelled from the spec: source of a count literal (`-1` spells the
infinite count in the grammar). -/
def countToSource : Count → Str
  | .finite n => natRepr n
  | .infinite => ("-1").data

/-- Modelled from the spec: source of a count option. -/
def countOptionToSource : CountOption → Str
  | .literal c => countToSource c
  | .placeholder p => p.source

/-- Modelled from the spec: source of a boolean option. -/
def boolOptionToSource : BooleanOption → Str
  | .literal b => boolString b
  | .placeholder p => p.source

/-- Modelled from the spec: source of a natural option. -/
def naturalOptionToSource : NaturalOption → Str
  | .literal u => u.source
  | .placeholder p => p.source

/-- Modelled from the spec: source of a duration option. -/
def durationOptionToSource : DurationOption → Str
  | .literal d =>
      d.value.source ++
        (match d.unit with
          | some u => durationUnitString u
          | none => [])
  | .placeholder p => p.source

/-- Modelled from the spec: source of a variable value. -/
def variableValueToSource : VariableValue → Str
  | .null => ("null").data
  | .bool b => boolString b
  | .number n => n.source
  | .string t => t.source

/-- Modelled from the spec: source of a variable definition
(`name = value` with its interleaved blanks). -/
def variableDefinitionToSource (v : VariableDefinition) : Str :=
  v.name ++ v.space0.value ++ ['='] ++ v.space1.value ++
    variableValueToSource v.value

/-- Modelled from the spec: source of a `file,...;` literal. -/
def fileToSource (f : File) : Str :=
  ("file,").data ++ f.space0.value ++ f.filename.source ++ f.space1.value ++
    [';']

/-- Modelled from the spec: source of a `base64,...;` literal. -/
def base64ToSource (b : Base64) : Str :=
  ("base64,").data ++ b.space0.value ++ b.source ++ b.space1.value ++ [';']

/-- Modelled from the spec: source of a `hex,...;` literal. -/
def hexToSource (h : Hex) : Str :=
  ("hex,").data ++ h.space0.value ++ h.source ++ h.space1.value ++ [';']

/-- Modelled from the spec: source of a cookie-path payload
(`"name[attr]"` with the attribute's interior blanks). -/
def cookiePathToSource (cp : CookiePath) : Str :=
  '"' :: cp.name.source ++
    (match cp.attr with
      | some a => '[' :: a.space0.value ++ a.name ++ a.space1.value ++ [']']
      | none => []) ++
    ['"']

/-- Modelled from the spec: source of a certificate attribute payload
(quoted identifier). -/
def certificateAttributeNameToSource (n : CertificateAttributeName) : Str :=
  '"' :: certificateAttributeNameIdentifier n ++ ['"']

/-- Modelled from the spec: source of a regex value. -/
def regexValueToSource : RegexValue → Str
  | .template t => t.source
  | .regex r => r.source

/-- Modelled from the spec: source of a query (identifier, then payload in
physical order). -/
def queryValueToSource (qv : QueryValue) : Str :=
  queryIdentifier qv ++
    (match qv with
      | .Header space0 name => space0.value ++ name.source
      | .Cookie space0 expr => space0.value ++ cookiePathToSource expr
      | .Xpath space0 expr => space0.value ++ expr.source
      | .Jsonpath space0 expr => space0.value ++ expr.source
      | .Regex space0 value => space0.value ++ regexValueToSource value
      | .Variable space0 name => space0.value ++ name.source
      | .Certificate space0 field =>
          space0.value ++ certificateAttributeNameToSource field
      | _ => [])

/-- Modelled from the spec: source of a filter. -/
def filterValueToSource (fv : FilterValue) : Str :=
  filterIdentifier fv ++
    (match fv with
      | .Decode space0 encoding => space0.value ++ encoding.source
      | .Format space0 fmt => space0.value ++ fmt.source
      | .JsonPath space0 expr => space0.value ++ expr.source
      | .Nth space0 n => space0.value ++ n.source
      | .Regex space0 value => space0.value ++ regexValueToSource value
      | .Replace space0 old_value space1 new_value =>
          space0.value ++ old_value.source ++ space1.value ++ new_value.source
      | .ReplaceRegex space0 pattern space1 new_value =>
          space0.value ++ regexValueToSource pattern ++ space1.value ++
            new_value.source
      | .Split space0 sep => space0.value ++ sep.source
      | .ToDate space0 fmt => space0.value ++ fmt.source
      | .UrlQueryParam space0 param => space0.value ++ param.source
      | .XPath space0 expr => space0.value ++ expr.source
      | _ => [])

/-- Modelled from the spec: source of a predicate value. -/
def predicateValueToSource : PredicateValue → Str
  | .string t => t.source
  | .multilineString m => m.source
  | .number n => n.source
  | .bool b => boolString b
  | .file f => fileToSource f
  | .hex h => hexToSource h
  | .base64 b => base64ToSource b
  | .placeholder p => p.source
  | .null => ("null").data
  | .regex r => r.source

/-- Modelled from the spec: source of a predicate function (identifier,
then payload). -/
def predicateFuncValueToSource (v : PredicateFuncValue) : Str :=
  predicateFuncIdentifier v ++
    (match v with
      | .Equal space0 value => space0.value ++ predicateValueToSource value
      | .NotEqual space0 value => space0.value ++ predicateValueToSource value
      | .GreaterThan space0 value =>
          space0.value ++ predicateValueToSource value
      | .GreaterThanOrEqual space0 value =>
          space0.value ++ predicateValueToSource value
      | .LessThan space0 value =>
          space0.value ++ predicateValueToSource value
      | .LessThanOrEqual space0 value =>
          space0.value ++ predicateValueToSource value
      | .StartWith space0 value =>
          space0.value ++ predicateValueToSource value
      | .EndWith space0 value => space0.value ++ predicateValueToSource value
      | .Contain space0 value => space0.value ++ predicateValueToSource value
      | .Include space0 value => space0.value ++ predicateValueToSource value
      | .Match space0 value => space0.value ++ predicateValueToSource value
      | _ => [])

/-- Modelled from the spec: source of a predicate (optional `not`, then the
function). -/
def predicateToSource (p : Predicate) : Str :=
  (if p.not then ("not").data ++ p.space0.value else []) ++
    predicateFuncValueToSource p.predicate_func.value

/-- Modelled from the spec: source of an assert line. -/
def assertToSource (a : Assert) : Str :=
  ltsToSource a.line_terminators ++ a.space0.value ++
    queryValueToSource a.query.value ++
    srcAll (fun sf => sf.1.value ++ filterValueToSource sf.2.value)
      a.filters ++
    a.space1.value ++ predicateToSource a.predicate ++
    ltToSource a.line_terminator0

/-- Modelled from the spec: source of a capture line (trailing `redact`
marker when the flag is set). -/
def captureToSource (c : Capture) : Str :=
  ltsToSource c.line_terminators ++ c.space0.value ++ c.name.source ++
    c.space1.value ++ [':'] ++ c.space2.value ++
    queryValueToSource c.query.value ++
    srcAll (fun sf => sf.1.value ++ filterValueToSource sf.2.value)
      c.filters ++
    c.space3.value ++
    (if c.redact then ("redact").data else []) ++
    ltToSource c.line_terminator0

/-- Modelled from the spec: source of a cookie line. -/
def cookieToSource (c : Cookie) : Str :=
  ltsToSource c.line_terminators ++ c.space0.value ++ c.name.source ++
    c.space1.value ++ [':'] ++ c.space2.value ++ c.value.source ++
    ltToSource c.line_terminator0

/-- Modelled from the spec: source of a key-value line. -/
def kvToSource (kv : KeyValue) : Str :=
  ltsToSource kv.line_terminators ++ kv.space0.value ++ kv.key.source ++
    kv.space1.value ++ [':'] ++ kv.space2.value ++ kv.value.source ++
    ltToSource kv.line_terminator0

/-- Modelled from the spec: source of a multipart file value. -/
def fileValueToSource (fv : FilenameValue) : Str :=
  ("file,").data ++ fv.space0.value ++ fv.filename.source ++
    fv.space1.value ++ [';'] ++ fv.space2.value ++
    (match fv.content_type with
      | some t => t.source
      | none => [])

/-- Modelled from the spec: source of a multipart file parameter line. -/
def fileParamToSource (p : FilenameParam) : Str :=
  ltsToSource p.line_terminators ++ p.space0.value ++ p.key.source ++
    p.space1.value ++ [':'] ++ p.space2.value ++
    fileValueToSource p.value ++ ltToSource p.line_terminator0

/-- Modelled from the spec: source of a multipart parameter. -/
def multipartParamToSource : MultipartParam → Str
  | .param p => kvToSource p
  | .filenameParam p => fileParamToSource p

/-- Modelled from the spec: source of an option's value. -/
def optionKindValueToSource : OptionKind → Str
  | .AwsSigV4 value => value.source
  | .CaCertificate filename => filename.source
  | .ClientCert filename => filename.source
  | .ClientKey filename => filename.source
  | .Compressed value => boolOptionToSource value
  | .ConnectTo value => value.source
  | .ConnectTimeout value => durationOptionToSource value
  | .Delay value => durationOptionToSource value
  | .FollowLocation value => boolOptionToSource value
  | .FollowLocationTrusted value => boolOptionToSource value
  | .Header value => value.source
  | .Http10 value => boolOptionToSource value
  | .Http11 value => boolOptionToSource value
  | .Http2 value => boolOptionToSource value
  | .Http3 value => boolOptionToSource value
  | .Insecure value => boolOptionToSource value
  | .IpV4 value => boolOptionToSource value
  | .IpV6 value => boolOptionToSource value
  | .LimitRate value => naturalOptionToSource value
  | .MaxRedirect value => countOptionToSource value
  | .MaxTime value => durationOptionToSource value
  | .NetRc value => boolOptionToSource value
  | .NetRcFile filename => filename.source
  | .NetRcOptional value => boolOptionToSource value
  | .Output filename => filename.source
  | .PathAsIs value => boolOptionToSource value
  | .PinnedPublicKey value => value.source
  | .Proxy value => value.source
  | .Repeat value => countOptionToSource value
  | .Resolve value => value.source
  | .Retry value => countOptionToSource value
  | .RetryInterval value => durationOptionToSource value
  | .Skip value => boolOptionToSource value
  | .UnixSocket value => value.source
  | .User value => value.source
  | .Variable value => variableDefinitionToSource value
  | .Verbose value => boolOptionToSource value
  | .VeryVerbose value => boolOptionToSource value

/-- Modelled from the spec: source of an option line. -/
def entryOptionToSource (o : EntryOption) : Str :=
  ltsToSource o.line_terminators ++ o.space0.value ++
    optionKindIdentifier o.kind ++ o.space1.value ++ [':'] ++
    o.space2.value ++ optionKindValueToSource o.kind ++
    ltToSource o.line_terminator0

/-- Modelled from the spec: source of a section body. -/
def sectionValueToSource : SectionValue → Str
  | .Asserts items => srcAll assertToSource items
  | .QueryParams items _ => srcAll kvToSource items
  | .BasicAuth item =>
      (match item with
        | some kv => kvToSource kv
        | none => [])
  | .FormParams items _ => srcAll kvToSource items
  | .MultipartFormData items _ => srcAll multipartParamToSource items
  | .Cookies items => srcAll cookieToSource items
  | .Captures items => srcAll captureToSource items
  | .Options items => srcAll entryOptionToSource items

/-- Modelled from the spec: source of a section (`[identifier]` header then
items). -/
def sectionToSource (s : Section) : Str :=
  ltsToSource s.line_terminators ++ s.space0.value ++
    ('[' :: sectionIdentifier s.value ++ [']']) ++
    ltToSource s.line_terminator0 ++ sectionValueToSource s.value

/-- Modelled from the spec: source of a body block. -/
def bytesToSource : Bytes → Str
  | .base64 value => base64ToSource value
  | .file value => fileToSource value
  | .hex value => hexToSource value
  | .onelineString value => value.source
  | .json value => value.source
  | .multilineString value => value.source
  | .xml value => value

/-- Modelled from the spec: source of a body node. -/
def bodyToSource (b : Body) : Str :=
  ltsToSource b.line_terminators ++ b.space0.value ++
    bytesToSource b.value ++ ltToSource b.line_terminator0

/-- Modelled from the spec: source of a request. -/
def requestToSource (r : Request) : Str :=
  ltsToSource r.line_terminators ++ r.space0.value ++ r.method.value ++
    r.space1.value ++ r.url.source ++ ltToSource r.line_terminator0 ++
    srcAll kvToSource r.headers ++ srcAll sectionToSource r.sections ++
    (match r.body with
      | some b => bodyToSource b
      | none => [])

/-- Modelled from the spec: source of a response. -/
def responseToSource (r : Response) : Str :=
  ltsToSource r.line_terminators ++ r.space0.value ++ r.version.value ++
    r.space1.value ++ r.status.value ++ ltToSource r.line_terminator0 ++
    srcAll kvToSource r.headers ++ srcAll sectionToSource r.sections ++
    (match r.body with
      | some b => bodyToSource b
      | none => [])

/-- Modelled from the spec: source of an entry. -/
def entryToSource (e : Entry) : Str :=
  requestToSource e.request ++
    (match e.response with
      | some r => responseToSource r
      | none => [])

/-- Modelled from the spec: source of a whole document. -/
def hurlFileToSource (f : HurlFile) : Str :=
  srcAll entryToSource f.entries ++ ltsToSource f.line_terminators

/-!
Validity of a document tree.  Modelled from the spec: a valid tree is one a
parser can produce — every verbatim fragment is consistent with its decoded
value.  The conditions below additionally require that every fragment the
formatter emits *without* XML-escaping (whitespace, newlines, head tokens,
names, number/regex/placeholder/base64/hex sources, filenames) is free of
the ampersand character, and that a filename's verbatim source equals its
decoded text with spaces backslash-escaped; these are exactly the conditions
the round-trip theorem needs (see the `C1` counterexample for a tree that is
parser-producible but violates them).
-/

def validWhitespace (w : Whitespace) : Bool := ampFreeB w.value

def validLt (lt : LineTerminator) : Bool :=
  ampFreeB lt.space0.value && ampFreeB lt.newline.value

def validLts (lts : List LineTerminator) : Bool := lts.all validLt

def validFilename (t : Template) : Bool :=
  (t.source == replaceChar ' ' (("\\ ").data) t.value) && ampFreeB t.value

def validPlaceholder (p : Placeholder) : Bool := ampFreeB p.source

def validRegex (r : Regex) : Bool := ampFreeB r.source

def validNumber (n : Number) : Bool := ampFreeB n.source

def validU64 (u : U64) : Bool := ampFreeB u.source

def validBase64 (b : Base64) : Bool :=
  validWhitespace b.space0 && ampFreeB b.source && validWhitespace b.space1

def validHex (h : Hex) : Bool :=
  validWhitespace h.space0 && ampFreeB h.source && validWhitespace h.space1

def validFile (f : File) : Bool :=
  validWhitespace f.space0 && validFilename f.filename &&
    validWhitespace f.space1

def validCookieAttribute (a : CookieAttribute) : Bool :=
  validWhitespace a.space0 && ampFreeB a.name && validWhitespace a.space1

def validCookiePath (cp : CookiePath) : Bool :=
  ampFreeB cp.name.source &&
    (match cp.attr with
      | some a => validCookieAttribute a
      | none => true)

def validMethod (m : Method) : Bool := ampFreeB m.value

def validVersion (v : Version) : Bool := ampFreeB v.value

def validStatus (s : Status) : Bool := ampFreeB s.value

def validBooleanOption : BooleanOption → Bool
  | .literal _ => true
  | .placeholder p => validPlaceholder p

def validNaturalOption : NaturalOption → Bool
  | .literal u => validU64 u
  | .placeholder p => validPlaceholder p

def validDurationOption : DurationOption → Bool
  | .literal d => validU64 d.value
  | .placeholder p => validPlaceholder p

def validCountOption : CountOption → Bool
  | .literal _ => true
  | .placeholder p => validPlaceholder p

def validVariableValue : VariableValue → Bool
  | .null => true
  | .bool _ => true
  | .number n => validNumber n
  | .string _ => true

def validVariableDefinition (v : VariableDefinition) : Bool :=
  ampFreeB v.name && validWhitespace v.space0 && validWhitespace v.space1 &&
    validVariableValue v.value

def validRegexValue : RegexValue → Bool
  | .template _ => true
  | .regex r => validRegex r

def validQueryValue : QueryValue → Bool
  | .Header space0 _ => validWhitespace space0
  | .Cookie space0 expr => validWhitespace space0 && validCookiePath expr
  | .Xpath space0 _ => validWhitespace space0
  | .Jsonpath space0 _ => validWhitespace space0
  | .Regex space0 value => validWhitespace space0 && validRegexValue value
  | .Variable space0 _ => validWhitespace space0
  | .Certificate space0 _ => validWhitespace space0
  | _ => true

def validFilterValue : FilterValue → Bool
  | .Decode space0 _ => validWhitespace space0
  | .Format space0 _ => validWhitespace space0
  | .JsonPath space0 _ => validWhitespace space0
  | .Nth space0 n => validWhitespace space0 && validU64 n
  | .Regex space0 value => validWhitespace space0 && validRegexValue value
  | .Replace space0 _ space1 _ =>
      validWhitespace space0 && validWhitespace space1
  | .ReplaceRegex space0 pattern space1 _ =>
      validWhitespace space0 && validRegexValue pattern &&
        validWhitespace space1
  | .Split space0 _ => validWhitespace space0
  | .ToDate space0 _ => validWhitespace space0
  | .UrlQueryParam space0 _ => validWhitespace space0
  | .XPath space0 _ => validWhitespace space0
  | _ => true

def validPredicateValue : PredicateValue → Bool
  | .string _ => true
  | .multilineString _ => true
  | .number n => validNumber n
  | .bool _ => true
  | .file f => validFile f
  | .hex h => validHex h
  | .base64 b => validBase64 b
  | .placeholder p => validPlaceholder p
  | .null => true
  | .regex r => validRegex r

def validPredicateFuncValue : PredicateFuncValue → Bool
  | .Equal space0 value => validWhitespace space0 && validPredicateValue value
  | .NotEqual space0 value =>
      validWhitespace space0 && validPredicateValue value
  | .GreaterThan space0 value =>
      validWhitespace space0 && validPredicateValue value
  | .GreaterThanOrEqual space0 value =>
      validWhitespace space0 && validPredicateValue value
  | .LessThan space0 value =>
      validWhitespace space0 && validPredicateValue value
  | .LessThanOrEqual space0 value =>
      validWhitespace space0 && validPredicateValue value
  | .StartWith space0 value =>
      validWhitespace space0 && validPredicateValue value
  | .EndWith space0 value =>
      validWhitespace space0 && validPredicateValue value
  | .Contain space0 value =>
      validWhitespace space0 && validPredicateValue value
  | .Include space0 value =>
      validWhitespace space0 && validPredicateValue value
  | .Match space0 value => validWhitespace space0 && validPredicateValue value
  | _ => true

def validPredicate (p : Predicate) : Bool :=
  (if p.not then validWhitespace p.space0 else true) &&
    validPredicateFuncValue p.predicate_func.value

def validFilters (filters : List (Whitespace × Filter)) : Bool :=
  filters.all (fun sf => validWhitespace sf.1 && validFilterValue sf.2.value)

def validAssert (a : Assert) : Bool :=
  validLts a.line_terminators && validWhitespace a.space0 &&
    validQueryValue a.query.value && validFilters a.filters &&
    validWhitespace a.space1 && validPredicate a.predicate &&
    validLt a.line_terminator0

def validCapture (c : Capture) : Bool :=
  validLts c.line_terminators && validWhitespace c.space0 &&
    validWhitespace c.space1 && validWhitespace c.space2 &&
    validQueryValue c.query.value && validFilters c.filters &&
    validWhitespace c.space3 && validLt c.line_terminator0

def validCookieNode (c : Cookie) : Bool :=
  validLts c.line_terminators && validWhitespace c.space0 &&
    validWhitespace c.space1 && validWhitespace c.space2 &&
    validLt c.line_terminator0

def validKv (kv : KeyValue) : Bool :=
  validLts kv.line_terminators && validWhitespace kv.space0 &&
    validWhitespace kv.space1 && validWhitespace kv.space2 &&
    validLt kv.line_terminator0

def validFileValue (fv : FilenameValue) : Bool :=
  validWhitespace fv.space0 && validFilename fv.filename &&
    validWhitespace fv.space1 && validWhitespace fv.space2

def validFileParam (p : FilenameParam) : Bool :=
  validLts p.line_terminators && validWhitespace p.space0 &&
    validWhitespace p.space1 && validWhitespace p.space2 &&
    validFileValue p.value && validLt p.line_terminator0

def validMultipartParam : MultipartParam → Bool
  | .param p => validKv p
  | .filenameParam p => validFileParam p

def validOptionKindValue : OptionKind → Bool
  | .AwsSigV4 _ => true
  | .CaCertificate filename => validFilename filename
  | .ClientCert filename => validFilename filename
  | .ClientKey filename => validFilename filename
  | .Compressed value => validBooleanOption value
  | .ConnectTo _ => true
  | .ConnectTimeout value => validDurationOption value
  | .Delay value => validDurationOption value
  | .FollowLocation value => validBooleanOption value
  | .FollowLocationTrusted value => validBooleanOption value
  | .Header _ => true
  | .Http10 value => validBooleanOption value
  | .Http11 value => validBooleanOption value
  | .Http2 value => validBooleanOption value
  | .Http3 value => validBooleanOption value
  | .Insecure value => validBooleanOption value
  | .IpV4 value => validBooleanOption value
  | .IpV6 value => validBooleanOption value
  | .LimitRate value => validNaturalOption value
  | .MaxRedirect value => validCountOption value
  | .MaxTime value => validDurationOption value
  | .NetRc value => validBooleanOption value
  | .NetRcFile filename => validFilename filename
  | .NetRcOptional value => validBooleanOption value
  | .Output filename => validFilename filename
  | .PathAsIs value => validBooleanOption value
  | .PinnedPublicKey _ => true
  | .Proxy _ => true
  | .Repeat value => validCountOption value
  | .Resolve _ => true
  | .Retry value => validCountOption value
  | .RetryInterval value => validDurationOption value
  | .Skip value => validBooleanOption value
  | .UnixSocket value => validFilename value
  | .User _ => true
  | .Variable value => validVariableDefinition value
  | .Verbose value => validBooleanOption value
  | .VeryVerbose value => validBooleanOption value

def validEntryOption (o : EntryOption) : Bool :=
  validLts o.line_terminators && validWhitespace o.space0 &&
    validWhitespace o.space1 && validWhitespace o.space2 &&
    validOptionKindValue o.kind && validLt o.line_terminator0

def validSectionValue : SectionValue → Bool
  | .Asserts items => items.all validAssert
  | .QueryParams items _ => items.all validKv
  | .BasicAuth item =>
      (match item with
        | some kv => validKv kv
        | none => true)
  | .FormParams items _ => items.all validKv
  | .MultipartFormData items _ => items.all validMultipartParam
  | .Cookies items => items.all validCookieNode
  | .Captures items => items.all validCapture
  | .Options items => items.all validEntryOption

def validSection (s : Section) : Bool :=
  validLts s.line_terminators && validWhitespace s.space0 &&
    validLt s.line_terminator0 && validSectionValue s.value

def validBytes : Bytes → Bool
  | .base64 value => validBase64 value
  | .file value => validFile value
  | .hex value => validHex value
  | .onelineString _ => true
  | .json _ => true
  | .multilineString _ => true
  | .xml _ => true

def validBody (b : Body) : Bool :=
  validLts b.line_terminators && validWhitespace b.space0 &&
    validBytes b.value && validLt b.line_terminator0

def validRequest (r : Request) : Bool :=
  validLts r.line_terminators && validWhitespace r.space0 &&
    validMethod r.method && validWhitespace r.space1 &&
    validLt r.line_terminator0 && r.headers.all validKv &&
    r.sections.all validSection &&
    (match r.body with
      | some b => validBody b
      | none => true)

def validResponse (r : Response) : Bool :=
  validLts r.line_terminators && validWhitespace r.space0 &&
    validVersion r.version && validWhitespace r.space1 &&
    validStatus r.status && validLt r.line_terminator0 &&
    r.headers.all validKv && r.sections.all validSection &&
    (match r.body with
      | some b => validBody b
      | none => true)

def validEntry (e : Entry) : Bool :=
  validRequest e.request &&
    (match e.response with
      | some r => validResponse r
      | none => true)

def validHurlFile (f : HurlFile) : Bool :=
  f.entries.all validEntry && validLts f.line_terminators

/-!
Ampersand-freeness helper lemmas.
-/

theorem ampFree_append {a b : Str} (ha : AmpFree a) (hb : AmpFree b) :
    AmpFree (a ++ b) := by
  intro c hc
  rcases List.mem_append.mp hc with h | h
  · exact ha c h
  · exact hb c h

theorem ampFree_replaceChar {c : Char} {r s : Str}
    (hr : AmpFree r) (hs : AmpFree s) : AmpFree (replaceChar c r s) := by
  induction s with
  | nil => intro x hx; cases hx
  | cons x xs ih =>
    have hx : x ≠ '&' := hs x (by simp)
    have hxs : AmpFree xs := fun y hy => hs y (by simp [hy])
    refine ampFree_append ?_ (ih hxs)
    by_cases h : x = c
    · simpa [replaceChar, h] using hr
    · intro y hy
      simp [h] at hy
      simpa [hy] using hx

theorem digitChar_ne_amp (d : Nat) : digitChar d ≠ '&' := by
  unfold digitChar
  split <;> decide

theorem natReprAux_ampFree (fuel n : Nat) : AmpFree (natReprAux fuel n) := by
  induction fuel generalizing n with
  | zero => intro c hc; cases hc
  | succ fuel ih =>
    unfold natReprAux
    by_cases h : n < 10
    · intro c hc
      simp [h] at hc
      simpa [hc] using digitChar_ne_amp n
    · rw [if_neg h]
      refine ampFree_append (ih (n / 10)) ?_
      intro c hc
      simp at hc
      simpa [hc] using digitChar_ne_amp (n % 10)

theorem natRepr_ampFree (n : Nat) : AmpFree (natRepr n) :=
  natReprAux_ampFree (n + 1) n

theorem boolString_ampFree (b : Bool) : AmpFree (boolString b) := by
  cases b <;> decide

theorem durationUnitString_ampFree (u : DurationUnit) :
    AmpFree (durationUnitString u) := by
  cases u <;> decide

theorem certificateAttributeNameIdentifier_ampFree
    (n : CertificateAttributeName) :
    AmpFree (certificateAttributeNameIdentifier n) := by
  cases n <;> decide

theorem queryIdentifier_ampFree (qv : QueryValue) :
    AmpFree (queryIdentifier qv) := by
  cases qv <;> simp only [queryIdentifier] <;> decide

theorem filterIdentifier_ampFree (fv : FilterValue) :
    AmpFree (filterIdentifier fv) := by
  cases fv <;> simp only [filterIdentifier] <;> decide

theorem predicateFuncIdentifier_ampFree (v : PredicateFuncValue) :
    AmpFree (predicateFuncIdentifier v) := by
  cases v <;> simp only [predicateFuncIdentifier] <;> decide

theorem optionKindIdentifier_ampFree (k : OptionKind) :
    AmpFree (optionKindIdentifier k) := by
  cases k <;> simp only [optionKindIdentifier] <;> decide

theorem sectionIdentifier_ampFree (sv : SectionValue) :
    AmpFree (sectionIdentifier sv) := by
  cases sv <;> simp only [sectionIdentifier] <;> try decide
  all_goals (rename_i short; cases short <;> decide)

/-!
`Emits` lemmas for the primitive and leaf emitters.
-/

theorem emits_span_raw (cls : Str) {s : Str} (h : AmpFree s) :
    Emits (fmt_span cls s) s := by
  have := ((Emits.markup ((("<span class=\"").data) ++ cls ++
      (("\">").data))).append (Emits.textRaw h)).append
      (Emits.markup (("</span>").data))
  simpa [fmt_span, fmt_span_open, fmt_span_close] using this

theorem emits_span_esc (cls s : Str) :
    Emits (fmt_span cls (escape_xml s)) s := by
  have := ((Emits.markup ((("<span class=\"").data) ++ cls ++
      (("\">").data))).append (Emits.textEsc s)).append
      (Emits.markup (("</span>").data))
  simpa [fmt_span, fmt_span_open, fmt_span_close] using this

theorem emits_span_open (cls : Str) : Emits (fmt_span_open cls) [] :=
  Emits.markup _

theorem emits_span_close : Emits fmt_span_close [] :=
  Emits.markup _

theorem validWhitespace_ampFree {w : Whitespace}
    (h : validWhitespace w = true) : AmpFree w.value :=
  (ampFreeB_iff _).mp h

theorem emits_space {w : Whitespace} (h : validWhitespace w = true) :
    Emits (fmt_space w) w.value := by
  unfold fmt_space
  by_cases hw : w.value = []
  · rw [if_pos hw, hw]
    exact Emits.nil
  · rw [if_neg hw]
    exact Emits.textRaw (validWhitespace_ampFree h)

theorem emits_comment (c : Comment) :
    Emits (fmt_comment c) ('#' :: c.value) := by
  unfold fmt_comment
  have htext : Emits [Frag.text ('#' :: escape_xml c.value)]
      ('#' :: c.value) := by
    intro t
    have : ('#' :: escape_xml c.value) ++ t =
        '#' :: (escape_xml c.value ++ t) := rfl
    simp only [stripFrags, List.append_nil, List.append_assoc]
    rw [show ('#' :: escape_xml c.value) ++ t =
        '#' :: (escape_xml c.value ++ t) from rfl]
    rw [unescape_cons_ne '#' _ (by decide)]
    rw [unescape_escape_xml_append]
    rfl
  have := ((Emits.markup ((("<span class=\"").data) ++ (("comment").data) ++
      (("\">").data))).append htext).append
      (Emits.markup (("</span>").data))
  simpa [fmt_span, fmt_span_open, fmt_span_close] using this

theorem emits_lt {lt : LineTerminator} (h : validLt lt = true) :
    Emits (fmt_lt lt) (ltToSource lt) := by
  unfold validLt at h
  rw [Bool.and_eq_true] at h
  obtain ⟨h0, hn⟩ := h
  unfold fmt_lt ltToSource
  refine Emits.append (Emits.append (emits_space h0) ?_)
      (Emits.textRaw ((ampFreeB_iff _).mp hn))
  cases lt.comment with
  | none => exact Emits.nil
  | some c => exact emits_comment c

theorem emits_lts {lts : List LineTerminator} (h : validLts lts = true) :
    Emits (fmt_lts lts) (ltsToSource lts) := by
  induction lts with
  | nil => exact Emits.nil
  | cons lt rest ih =>
    rw [validLts, List.all_cons, Bool.and_eq_true] at h
    obtain ⟨hl, hrest⟩ := h
    rw [validLt, Bool.and_eq_true] at hl
    obtain ⟨h0, hn⟩ := hl
    have hcomment : Emits
        (match lt.comment with
          | some v => fmt_comment v
          | none => [])
        (match lt.comment with
          | some c => '#' :: c.value
          | none => []) := by
      cases lt.comment with
      | none => exact Emits.nil
      | some c => exact emits_comment c
    have hnl : Emits
        (if lt.newline.value = [] then [] else [Frag.text lt.newline.value])
        lt.newline.value := by
      by_cases hv : lt.newline.value = []
      · rw [if_pos hv, hv]
        exact Emits.nil
      · rw [if_neg hv]
        exact Emits.textRaw ((ampFreeB_iff _).mp hn)
    have hhead := (Emits.append (Emits.append (emits_space h0) hcomment) hnl)
    have htail := ih hrest
    have := hhead.append htail
    simpa [fmt_lts, emitAll, ltsToSource, srcAll, ltToSource] using this

theorem emits_template (t : Template) : Emits (fmt_template t) t.source :=
  emits_span_esc _ t.source

theorem emits_placeholder {p : Placeholder} (h : validPlaceholder p = true) :
    Emits (fmt_placeholder p) p.source :=
  emits_span_raw _ ((ampFreeB_iff _).mp h)

theorem emits_regex {r : Regex} (h : validRegex r = true) :
    Emits (fmt_regex r) r.source :=
  emits_span_raw _ ((ampFreeB_iff _).mp h)

theorem emits_number {s : Str} (h : AmpFree s) :
    Emits (fmt_number s) s :=
  emits_span_raw _ h

theorem emits_bool (b : Bool) : Emits (fmt_bool b) (boolString b) :=
  emits_span_raw _ (boolString_ampFree b)

theorem emits_multiline_string (m : MultilineString) :
    Emits (fmt_multiline_string m) m.source :=
  emits_span_esc _ m.source

theorem emits_json_value (j : JsonValue) :
    Emits (fmt_json_value j) j.source :=
  emits_span_esc _ j.source

theorem emits_xml (s : Str) : Emits (fmt_xml s) s :=
  emits_span_esc _ s

theorem emits_filename {t : Template} (h : validFilename t = true) :
    Emits (fmt_filename t) t.source := by
  unfold validFilename at h
  rw [Bool.and_eq_true] at h
  obtain ⟨hsrc, hval⟩ := h
  have hsrc' : t.source = replaceChar ' ' (("\\ ").data) t.value :=
    eq_of_beq hsrc
  have hfree : AmpFree (replaceChar ' ' (("\\ ").data) t.value) :=
    ampFree_replaceChar (by decide) ((ampFreeB_iff _).mp hval)
  unfold fmt_filename
  rw [hsrc']
  have := ((Emits.markup ((("<span class=\"").data) ++ (("filename").data) ++
      (("\">").data))).append (Emits.textRaw hfree)).append
      (Emits.markup (("</span>").data))
  simpa [fmt_span_open, fmt_span_close] using this

theorem emits_emitAll {α : Type} {f : α → List Frag} {g : α → Str}
    {p : α → Bool} (he : ∀ x, p x = true → Emits (f x) (g x)) :
    ∀ {l : List α}, l.all p = true → Emits (emitAll f l) (srcAll g l) := by
  intro l
  induction l with
  | nil => intro _; exact Emits.nil
  | cons x xs ih =>
    intro h
    rw [List.all_cons, Bool.and_eq_true] at h
    exact (he x h.1).append (ih h.2)

theorem emits_base64 {b : Base64} (h : validBase64 b = true) :
    Emits (fmt_base64 b) (base64ToSource b) := by
  unfold validBase64 at h
  rw [Bool.and_eq_true, Bool.and_eq_true] at h
  obtain ⟨⟨h0, hs⟩, h1⟩ := h
  exact (((((Emits.textRaw (by decide)).append (emits_space h0)).append
      (emits_span_raw _ ((ampFreeB_iff _).mp hs))).append
      (emits_space h1)).append (Emits.textRaw (by decide)))

theorem emits_hex {x : Hex} (h : validHex x = true) :
    Emits (fmt_hex x) (hexToSource x) := by
  unfold validHex at h
  rw [Bool.and_eq_true, Bool.and_eq_true] at h
  obtain ⟨⟨h0, hs⟩, h1⟩ := h
  exact (((((Emits.textRaw (by decide)).append (emits_space h0)).append
      (emits_span_raw _ ((ampFreeB_iff _).mp hs))).append
      (emits_space h1)).append (Emits.textRaw (by decide)))

theorem emits_file {f : File} (h : validFile f = true) :
    Emits (fmt_file f) (fileToSource f) := by
  unfold validFile at h
  rw [Bool.and_eq_true, Bool.and_eq_true] at h
  obtain ⟨⟨h0, hf⟩, h1⟩ := h
  exact (((((Emits.textRaw (by decide)).append (emits_space h0)).append
      (emits_filename hf)).append (emits_space h1)).append
      (Emits.textRaw (by decide)))

theorem emits_bool_option {v : BooleanOption}
    (h : validBooleanOption v = true) :
    Emits (fmt_bool_option v) (boolOptionToSource v) := by
  cases v with
  | literal b =>
      exact emits_span_raw _ (boolString_ampFree b)
  | placeholder p =>
      exact emits_placeholder h

theorem emits_natural_option {v : NaturalOption}
    (h : validNaturalOption v = true) :
    Emits (fmt_natural_option v) (naturalOptionToSource v) := by
  cases v with
  | literal u => exact emits_span_raw _ ((ampFreeB_iff _).mp h)
  | placeholder p => exact emits_placeholder h

theorem emits_duration_option {v : DurationOption}
    (h : validDurationOption v = true) :
    Emits (fmt_duration_option v) (durationOptionToSource v) := by
  cases v with
  | literal d =>
      refine Emits.append (emits_span_raw _ ((ampFreeB_iff _).mp h)) ?_
      cases d.unit with
      | none => exact Emits.nil
      | some u => exact emits_span_raw _ (durationUnitString_ampFree u)
  | placeholder p => exact emits_placeholder h

theorem emits_count (c : Count) : Emits (fmt_count c) (countToSource c) := by
  cases c with
  | finite n =>
      simp only [fmt_count, countToSource]
      exact emits_number (natRepr_ampFree n)
  | infinite =>
      simp only [fmt_count, countToSource]
      exact emits_number (by decide)

theorem emits_count_option {v : CountOption}
    (h : validCountOption v = true) :
    Emits (fmt_count_option v) (countOptionToSource v) := by
  cases v with
  | literal c => exact emits_count c
  | placeholder p => exact emits_placeholder h

theorem emits_variable_value {v : VariableValue}
    (h : validVariableValue v = true) :
    Emits (fmt_variable_value v) (variableValueToSource v) := by
  cases v with
  | null => exact emits_span_raw _ (by decide)
  | bool b => exact emits_bool b
  | number n => exact emits_span_raw _ ((ampFreeB_iff _).mp h)
  | string t => exact emits_template t

theorem emits_variable_definition {v : VariableDefinition}
    (h : validVariableDefinition v = true) :
    Emits (fmt_variable_definition v) (variableDefinitionToSource v) := by
  unfold validVariableDefinition at h
  rw [Bool.and_eq_true, Bool.and_eq_true, Bool.and_eq_true] at h
  obtain ⟨⟨⟨hn, h0⟩, h1⟩, hv⟩ := h
  exact ((((Emits.textRaw ((ampFreeB_iff _).mp hn)).append
      (emits_space h0)).append (Emits.textRaw (by decide))).append
      (emits_space h1)).append (emits_variable_value hv)

theorem emits_cookie_attribute {a : CookieAttribute}
    (h : validCookieAttribute a = true) :
    Emits (fmt_cookie_attribute a)
      (a.space0.value ++ a.name ++ a.space1.value) := by
  unfold validCookieAttribute at h
  rw [Bool.and_eq_true, Bool.and_eq_true] at h
  obtain ⟨⟨h0, hn⟩, h1⟩ := h
  exact ((emits_space h0).append
      (Emits.textRaw ((ampFreeB_iff _).mp hn))).append (emits_space h1)

theorem emits_cookie_path {cp : CookiePath} (h : validCookiePath cp = true) :
    Emits (fmt_cookie_path cp) (cookiePathToSource cp) := by
  obtain ⟨nameT, attr⟩ := cp
  unfold validCookiePath at h
  rw [Bool.and_eq_true] at h
  obtain ⟨hn, hattr⟩ := h
  cases attr with
  | none =>
      have hmid := (((Emits.textRaw (s := ['"']) (by decide)).append
          (Emits.textRaw ((ampFreeB_iff _).mp hn))).append Emits.nil).append
          (Emits.textRaw (s := ['"']) (by decide))
      have := ((emits_span_open (("string").data)).append hmid).append
          emits_span_close
      simpa [fmt_cookie_path, cookiePathToSource, List.append_assoc]
        using this
  | some a =>
      have hattrEmits := ((Emits.textRaw (s := ['[']) (by decide)).append
          (emits_cookie_attribute hattr)).append
          (Emits.textRaw (s := [']']) (by decide))
      have hmid := (((Emits.textRaw (s := ['"']) (by decide)).append
          (Emits.textRaw ((ampFreeB_iff _).mp hn))).append
          hattrEmits).append (Emits.textRaw (s := ['"']) (by decide))
      have := ((emits_span_open (("string").data)).append hmid).append
          emits_span_close
      simpa [fmt_cookie_path, cookiePathToSource, List.append_assoc]
        using this

theorem emits_certificate_attribute_name (n : CertificateAttributeName) :
    Emits (fmt_certificate_attribute_name n)
      (certificateAttributeNameToSource n) := by
  have hmid : Emits
      ([Frag.text ['"']] ++
        [Frag.text (certificateAttributeNameIdentifier n)] ++
        [Frag.text ['"']])
      ('"' :: certificateAttributeNameIdentifier n ++ ['"']) := by
    have := ((Emits.textRaw (s := ['"']) (by decide)).append
        (Emits.textRaw (certificateAttributeNameIdentifier_ampFree n))).append
        (Emits.textRaw (s := ['"']) (by decide))
    simpa [List.append_assoc] using this
  have := ((emits_span_open (("string").data)).append hmid).append
      emits_span_close
  simpa [fmt_certificate_attribute_name, certificateAttributeNameToSource,
    List.append_assoc] using this

theorem emits_regex_value {rv : RegexValue} (h : validRegexValue rv = true) :
    Emits (fmt_regex_value rv) (regexValueToSource rv) := by
  cases rv with
  | template t => exact emits_template t
  | regex r => exact emits_regex h

theorem emits_query_value {qv : QueryValue} (h : validQueryValue qv = true) :
    Emits (fmt_query_value qv) (queryValueToSource qv) := by
  have hid : Emits (fmt_span (("query-type").data) (queryIdentifier qv))
      (queryIdentifier qv) :=
    emits_span_raw _ (queryIdentifier_ampFree qv)
  cases qv with
  | Header space0 name =>
      exact hid.append ((emits_space h).append (emits_template name))
  | Cookie space0 expr =>
      rw [validQueryValue, Bool.and_eq_true] at h
      exact hid.append ((emits_space h.1).append (emits_cookie_path h.2))
  | Xpath space0 expr =>
      exact hid.append ((emits_space h).append (emits_template expr))
  | Jsonpath space0 expr =>
      exact hid.append ((emits_space h).append (emits_template expr))
  | Regex space0 value =>
      rw [validQueryValue, Bool.and_eq_true] at h
      exact hid.append ((emits_space h.1).append (emits_regex_value h.2))
  | Variable space0 name =>
      exact hid.append ((emits_space h).append (emits_template name))
  | Certificate space0 field =>
      exact hid.append ((emits_space h).append
        (emits_certificate_attribute_name field))
  | Status => simpa using hid.append Emits.nil
  | Version => simpa using hid.append Emits.nil
  | Url => simpa using hid.append Emits.nil
  | Body => simpa using hid.append Emits.nil
  | Duration => simpa using hid.append Emits.nil
  | Bytes => simpa using hid.append Emits.nil
  | Sha256 => simpa using hid.append Emits.nil
  | Md5 => simpa using hid.append Emits.nil
  | Ip => simpa using hid.append Emits.nil
  | Redirects => simpa using hid.append Emits.nil

theorem emits_filter_value {fv : FilterValue}
    (h : validFilterValue fv = true) :
    Emits (fmt_filter_value fv) (filterValueToSource fv) := by
  have hid : Emits (fmt_span (("filter-type").data) (filterIdentifier fv))
      (filterIdentifier fv) :=
    emits_span_raw _ (filterIdentifier_ampFree fv)
  cases fv with
  | Decode space0 encoding =>
      exact hid.append ((emits_space h).append (emits_template encoding))
  | Format space0 fmt =>
      exact hid.append ((emits_space h).append (emits_template fmt))
  | JsonPath space0 expr =>
      exact hid.append ((emits_space h).append (emits_template expr))
  | Nth space0 n =>
      rw [validFilterValue, Bool.and_eq_true] at h
      exact hid.append ((emits_space h.1).append
        (emits_span_raw _ ((ampFreeB_iff _).mp h.2)))
  | Regex space0 value =>
      rw [validFilterValue, Bool.and_eq_true] at h
      exact hid.append ((emits_space h.1).append (emits_regex_value h.2))
  | Replace space0 old_value space1 new_value =>
      rw [validFilterValue, Bool.and_eq_true] at h
      exact hid.append ((((emits_space h.1).append
        (emits_template old_value)).append (emits_space h.2)).append
        (emits_template new_value))
  | ReplaceRegex space0 pattern space1 new_value =>
      rw [validFilterValue, Bool.and_eq_true, Bool.and_eq_true] at h
      exact hid.append ((((emits_space h.1.1).append
        (emits_regex_value h.1.2)).append (emits_space h.2)).append
        (emits_template new_value))
  | Split space0 sep =>
      exact hid.append ((emits_space h).append (emits_template sep))
  | ToDate space0 fmt =>
      exact hid.append ((emits_space h).append (emits_template fmt))
  | UrlQueryParam space0 param =>
      exact hid.append ((emits_space h).append (emits_template param))
  | XPath space0 expr =>
      exact hid.append ((emits_space h).append (emits_template expr))
  | Base64Decode => simpa using hid.append Emits.nil
  | Base64Encode => simpa using hid.append Emits.nil
  | Base64UrlSafeDecode => simpa using hid.append Emits.nil
  | Base64UrlSafeEncode => simpa using hid.append Emits.nil
  | Count => simpa using hid.append Emits.nil
  | DaysAfterNow => simpa using hid.append Emits.nil
  | DaysBeforeNow => simpa using hid.append Emits.nil
  | First => simpa using hid.append Emits.nil
  | HtmlEscape => simpa using hid.append Emits.nil
  | HtmlUnescape => simpa using hid.append Emits.nil
  | Last => simpa using hid.append Emits.nil
  | Location => simpa using hid.append Emits.nil
  | ToFloat => simpa using hid.append Emits.nil
  | ToHex => simpa using hid.append Emits.nil
  | ToInt => simpa using hid.append Emits.nil
  | ToString => simpa using hid.append Emits.nil
  | UrlDecode => simpa using hid.append Emits.nil
  | UrlEncode => simpa using hid.append Emits.nil

theorem emits_predicate_value {pv : PredicateValue}
    (h : validPredicateValue pv = true) :
    Emits (fmt_predicate_value pv) (predicateValueToSource pv) := by
  cases pv with
  | string t => exact emits_template t
  | multilineString m => exact emits_multiline_string m
  | number n => exact emits_number ((ampFreeB_iff _).mp h)
  | bool b => exact emits_bool b
  | file f => exact emits_file h
  | hex x => exact emits_hex h
  | base64 b => exact emits_base64 h
  | placeholder p => exact emits_placeholder h
  | null => exact emits_span_raw _ (by decide)
  | regex r => exact emits_regex h

theorem emits_predicate_func_value {v : PredicateFuncValue}
    (h : validPredicateFuncValue v = true) :
    Emits (fmt_predicate_func_value v) (predicateFuncValueToSource v) := by
  have hlabel : Emits
      (fmt_span_open (("predicate-type").data) ++
        [Frag.text (encode_html (predicateFuncIdentifier v))] ++
        fmt_span_close)
      (predicateFuncIdentifier v) := by
    have := ((emits_span_open (("predicate-type").data)).append
        (Emits.textEnc (predicateFuncIdentifier_ampFree v))).append
        emits_span_close
    simpa using this
  cases v with
  | Equal space0 value =>
      simp only [validPredicateFuncValue, Bool.and_eq_true] at h
      exact hlabel.append
        ((emits_space h.1).append (emits_predicate_value h.2))
  | NotEqual space0 value =>
      simp only [validPredicateFuncValue, Bool.and_eq_true] at h
      exact hlabel.append
        ((emits_space h.1).append (emits_predicate_value h.2))
  | GreaterThan space0 value =>
      simp only [validPredicateFuncValue, Bool.and_eq_true] at h
      exact hlabel.append
        ((emits_space h.1).append (emits_predicate_value h.2))
  | GreaterThanOrEqual space0 value =>
      simp only [validPredicateFuncValue, Bool.and_eq_true] at h
      exact hlabel.append
        ((emits_space h.1).append (emits_predicate_value h.2))
  | LessThan space0 value =>
      simp only [validPredicateFuncValue, Bool.and_eq_true] at h
      exact hlabel.append
        ((emits_space h.1).append (emits_predicate_value h.2))
  | LessThanOrEqual space0 value =>
      simp only [validPredicateFuncValue, Bool.and_eq_true] at h
      exact hlabel.append
        ((emits_space h.1).append (emits_predicate_value h.2))
  | StartWith space0 value =>
      simp only [validPredicateFuncValue, Bool.and_eq_true] at h
      exact hlabel.append
        ((emits_space h.1).append (emits_predicate_value h.2))
  | EndWith space0 value =>
      simp only [validPredicateFuncValue, Bool.and_eq_true] at h
      exact hlabel.append
        ((emits_space h.1).append (emits_predicate_value h.2))
  | Contain space0 value =>
      simp only [validPredicateFuncValue, Bool.and_eq_true] at h
      exact hlabel.append
        ((emits_space h.1).append (emits_predicate_value h.2))
  | Include space0 value =>
      simp only [validPredicateFuncValue, Bool.and_eq_true] at h
      exact hlabel.append
        ((emits_space h.1).append (emits_predicate_value h.2))
  | Match space0 value =>
      simp only [validPredicateFuncValue, Bool.and_eq_true] at h
      exact hlabel.append
        ((emits_space h.1).append (emits_predicate_value h.2))
  | IsInteger => simpa using hlabel.append Emits.nil
  | IsFloat => simpa using hlabel.append Emits.nil
  | IsBoolean => simpa using hlabel.append Emits.nil
  | IsString => simpa using hlabel.append Emits.nil
  | IsCollection => simpa using hlabel.append Emits.nil
  | IsDate => simpa using hlabel.append Emits.nil
  | IsIsoDate => simpa using hlabel.append Emits.nil
  | Exist => simpa using hlabel.append Emits.nil
  | IsEmpty => simpa using hlabel.append Emits.nil
  | IsNumber => simpa using hlabel.append Emits.nil
  | IsIpv4 => simpa using hlabel.append Emits.nil
  | IsIpv6 => simpa using hlabel.append Emits.nil

theorem emits_predicate {p : Predicate} (h : validPredicate p = true) :
    Emits (fmt_predicate p) (predicateToSource p) := by
  unfold validPredicate at h
  rw [Bool.and_eq_true] at h
  obtain ⟨hn, hf⟩ := h
  unfold fmt_predicate predicateToSource
  by_cases hnot : p.not
  · rw [if_pos hnot] at hn ⊢
    rw [if_pos hnot]
    refine Emits.append ?_ (emits_predicate_func_value hf)
    exact (emits_span_raw _ (by decide)).append (emits_space hn)
  · rw [if_neg hnot, if_neg hnot]
    exact Emits.nil.append (emits_predicate_func_value hf)

theorem emits_filters {filters : List (Whitespace × Filter)}
    (h : validFilters filters = true) :
    Emits (emitAll (fun sf => fmt_space sf.1 ++ fmt_filter sf.2) filters)
      (srcAll (fun sf => sf.1.value ++ filterValueToSource sf.2.value)
        filters) := by
  refine emits_emitAll ?_ h
  intro x hx
  rw [Bool.and_eq_true] at hx
  exact (emits_space hx.1).append (emits_filter_value hx.2)

theorem emits_query {q : Query} (h : validQueryValue q.value = true) :
    Emits (fmt_query q) (queryValueToSource q.value) :=
  emits_query_value h

theorem emits_assert {a : Assert} (h : validAssert a = true) :
    Emits (fmt_assert a) (assertToSource a) := by
  simp only [validAssert, Bool.and_eq_true] at h
  obtain ⟨⟨⟨⟨⟨⟨h1, h2⟩, h3⟩, h4⟩, h5⟩, h6⟩, h7⟩ := h
  have := ((((((emits_lts h1).append (emits_space h2)).append
      (emits_query h3)).append (emits_filters h4)).append
      ((emits_space h5).append (emits_predicate h6))).append (emits_lt h7))
  simpa [fmt_assert, assertToSource, List.append_assoc] using this

theorem emits_capture {c : Capture} (h : validCapture c = true) :
    Emits (fmt_capture c) (captureToSource c) := by
  simp only [validCapture, Bool.and_eq_true] at h
  obtain ⟨⟨⟨⟨⟨⟨⟨h1, h2⟩, h3⟩, h4⟩, h5⟩, h6⟩, h7⟩, h8⟩ := h
  have hredact : Emits
      (if c.redact then fmt_string (("redact").data) else [])
      (if c.redact then ("redact").data else []) := by
    by_cases hr : c.redact
    · rw [if_pos hr, if_pos hr]
      exact emits_span_raw (("string").data) (by decide)
    · rw [if_neg hr, if_neg hr]
      exact Emits.nil
  have := (((((((((emits_lts h1).append (emits_space h2)).append
      (emits_template c.name)).append (emits_space h3)).append
      (Emits.textRaw (s := [':']) (by decide))).append
      (emits_space h4)).append
      ((emits_query h5).append (emits_filters h6))).append
      ((emits_space h7).append hredact)).append (emits_lt h8))
  simpa [fmt_capture, captureToSource, List.append_assoc] using this

theorem emits_cookie {c : Cookie} (h : validCookieNode c = true) :
    Emits (fmt_cookie c) (cookieToSource c) := by
  simp only [validCookieNode, Bool.and_eq_true] at h
  obtain ⟨⟨⟨⟨h1, h2⟩, h3⟩, h4⟩, h5⟩ := h
  have := (((((((emits_lts h1).append (emits_space h2)).append
      (emits_template c.name)).append (emits_space h3)).append
      (Emits.textRaw (s := [':']) (by decide))).append
      ((emits_space h4).append (emits_template c.value))).append
      (emits_lt h5))
  simpa [fmt_cookie, cookieToSource, List.append_assoc] using this

theorem emits_kv {kv : KeyValue} (h : validKv kv = true) :
    Emits (fmt_kv kv) (kvToSource kv) := by
  simp only [validKv, Bool.and_eq_true] at h
  obtain ⟨⟨⟨⟨h1, h2⟩, h3⟩, h4⟩, h5⟩ := h
  have := (((((((emits_lts h1).append (emits_space h2)).append
      (emits_template kv.key)).append (emits_space h3)).append
      (Emits.textRaw (s := [':']) (by decide))).append
      ((emits_space h4).append (emits_template kv.value))).append
      (emits_lt h5))
  simpa [fmt_kv, kvToSource, List.append_assoc] using this

theorem emits_file_value {fv : FilenameValue} (h : validFileValue fv = true) :
    Emits (fmt_file_value fv) (fileValueToSource fv) := by
  simp only [validFileValue, Bool.and_eq_true] at h
  obtain ⟨⟨⟨h1, h2⟩, h3⟩, h4⟩ := h
  have hct : Emits
      (match fv.content_type with
        | some content_type => fmt_template content_type
        | none => [])
      (match fv.content_type with
        | some t => t.source
        | none => []) := by
    cases fv.content_type with
    | none => exact Emits.nil
    | some t => exact emits_template t
  have := ((((((Emits.textRaw (s := ("file,").data) (by decide)).append
      (emits_space h1)).append (emits_filename h2)).append
      (emits_space h3)).append
      ((Emits.textRaw (s := [';']) (by decide)).append
        (emits_space h4))).append hct)
  simpa [fmt_file_value, fileValueToSource, List.append_assoc] using this

theorem emits_file_param {p : FilenameParam} (h : validFileParam p = true) :
    Emits (fmt_file_param p) (fileParamToSource p) := by
  simp only [validFileParam, Bool.and_eq_true] at h
  obtain ⟨⟨⟨⟨⟨h1, h2⟩, h3⟩, h4⟩, h5⟩, h6⟩ := h
  have := (((((((emits_lts h1).append (emits_space h2)).append
      (emits_template p.key)).append (emits_space h3)).append
      (Emits.textRaw (s := [':']) (by decide))).append
      ((emits_space h4).append (emits_file_value h5))).append
      (emits_lt h6))
  simpa [fmt_file_param, fileParamToSource, List.append_assoc] using this

theorem emits_multipart_param {p : MultipartParam}
    (h : validMultipartParam p = true) :
    Emits (fmt_multipart_param p) (multipartParamToSource p) := by
  cases p with
  | param kv => exact emits_kv h
  | filenameParam fp => exact emits_file_param h

theorem emits_option_kind_value {k : OptionKind}
    (h : validOptionKindValue k = true) :
    Emits (fmt_option_kind_value k) (optionKindValueToSource k) := by
  cases k with
  | AwsSigV4 value => exact emits_template value
  | CaCertificate filename => exact emits_filename h
  | ClientCert filename => exact emits_filename h
  | ClientKey filename => exact emits_filename h
  | Compressed value => exact emits_bool_option h
  | ConnectTo value => exact emits_template value
  | ConnectTimeout value => exact emits_duration_option h
  | Delay value => exact emits_duration_option h
  | FollowLocation value => exact emits_bool_option h
  | FollowLocationTrusted value => exact emits_bool_option h
  | Header value => exact emits_template value
  | Http10 value => exact emits_bool_option h
  | Http11 value => exact emits_bool_option h
  | Http2 value => exact emits_bool_option h
  | Http3 value => exact emits_bool_option h
  | Insecure value => exact emits_bool_option h
  | IpV4 value => exact emits_bool_option h
  | IpV6 value => exact emits_bool_option h
  | LimitRate value => exact emits_natural_option h
  | MaxRedirect value => exact emits_count_option h
  | MaxTime value => exact emits_duration_option h
  | NetRc value => exact emits_bool_option h
  | NetRcFile filename => exact emits_filename h
  | NetRcOptional value => exact emits_bool_option h
  | Output filename => exact emits_filename h
  | PathAsIs value => exact emits_bool_option h
  | PinnedPublicKey value => exact emits_template value
  | Proxy value => exact emits_template value
  | Repeat value => exact emits_count_option h
  | Resolve value => exact emits_template value
  | Retry value => exact emits_count_option h
  | RetryInterval value => exact emits_duration_option h
  | Skip value => exact emits_bool_option h
  | UnixSocket value => exact emits_filename h
  | User value => exact emits_template value
  | Variable value => exact emits_variable_definition h
  | Verbose value => exact emits_bool_option h
  | VeryVerbose value => exact emits_bool_option h

theorem emits_entry_option {o : EntryOption} (h : validEntryOption o = true) :
    Emits (fmt_entry_option o) (entryOptionToSource o) := by
  simp only [validEntryOption, Bool.and_eq_true] at h
  obtain ⟨⟨⟨⟨⟨h1, h2⟩, h3⟩, h4⟩, h5⟩, h6⟩ := h
  have := (((((((emits_lts h1).append (emits_space h2)).append
      (emits_span_raw (("string").data)
        (optionKindIdentifier_ampFree o.kind))).append
      (emits_space h3)).append
      (Emits.textRaw (s := [':']) (by decide))).append
      ((emits_space h4).append (emits_option_kind_value h5))).append
      (emits_lt h6))
  simpa [fmt_entry_option, entryOptionToSource, fmt_string,
    List.append_assoc] using this

theorem emits_section_value {sv : SectionValue}
    (h : validSectionValue sv = true) :
    Emits (fmt_section_value sv) (sectionValueToSource sv) := by
  cases sv with
  | Asserts items => exact emits_emitAll (fun x hx => emits_assert hx) h
  | QueryParams items short => exact emits_emitAll (fun x hx => emits_kv hx) h
  | BasicAuth item =>
      cases item with
      | none => exact Emits.nil
      | some kv => exact emits_kv h
  | FormParams items short => exact emits_emitAll (fun x hx => emits_kv hx) h
  | MultipartFormData items short =>
      exact emits_emitAll (fun x hx => emits_multipart_param hx) h
  | Cookies items => exact emits_emitAll (fun x hx => emits_cookie hx) h
  | Captures items => exact emits_emitAll (fun x hx => emits_capture hx) h
  | Options items =>
      exact emits_emitAll (fun x hx => emits_entry_option hx) h

theorem emits_section {s : Section} (h : validSection s = true) :
    Emits (fmt_section s) (sectionToSource s) := by
  simp only [validSection, Bool.and_eq_true] at h
  obtain ⟨⟨⟨h1, h2⟩, h3⟩, h4⟩ := h
  have hheader : AmpFree ('[' :: sectionIdentifier s.value ++ [']']) := by
    intro c hc
    rcases List.mem_cons.mp hc with h | h
    · simp [h]
    · rcases List.mem_append.mp h with h | h
      · exact sectionIdentifier_ampFree s.value c h
      · simp at h
        simp [h]
  have := ((((emits_lts h1).append (emits_space h2)).append
      (emits_span_raw (("section-header").data) hheader)).append
      ((emits_lt h3).append (emits_section_value h4)))
  simpa [fmt_section, sectionToSource, List.append_assoc] using this

theorem emits_method {m : Method} (h : validMethod m = true) :
    Emits (fmt_method m) m.value :=
  emits_span_raw _ ((ampFreeB_iff _).mp h)

theorem emits_version {v : Version} (h : validVersion v = true) :
    Emits (fmt_version v) v.value :=
  emits_span_raw _ ((ampFreeB_iff _).mp h)

theorem emits_status {s : Status} (h : validStatus s = true) :
    Emits (fmt_status s) s.value :=
  emits_span_raw _ ((ampFreeB_iff _).mp h)

theorem emits_bytes {b : Bytes} (h : validBytes b = true) :
    Emits (fmt_bytes b) (bytesToSource b) := by
  cases b with
  | base64 value => exact emits_base64 h
  | file value => exact emits_file h
  | hex value => exact emits_hex h
  | onelineString value => exact emits_template value
  | json value => exact emits_json_value value
  | multilineString value => exact emits_multiline_string value
  | xml value => exact emits_xml value

theorem emits_body {b : Body} (h : validBody b = true) :
    Emits (fmt_body b) (bodyToSource b) := by
  simp only [validBody, Bool.and_eq_true] at h
  obtain ⟨⟨⟨h1, h2⟩, h3⟩, h4⟩ := h
  rw [validLt, Bool.and_eq_true] at h4
  obtain ⟨h40, h4n⟩ := h4
  have hcomment : Emits
      (match b.line_terminator0.comment with
        | some v => fmt_comment v
        | none => [])
      (match b.line_terminator0.comment with
        | some c => '#' :: c.value
        | none => []) := by
    cases b.line_terminator0.comment with
    | none => exact Emits.nil
    | some c => exact emits_comment c
  have := ((((((emits_lts h1).append (emits_space h2)).append
      (emits_bytes h3)).append (emits_space h40)).append hcomment).append
      (Emits.textRaw ((ampFreeB_iff _).mp h4n)))
  simpa [fmt_body, bodyToSource, ltToSource, List.append_assoc] using this

theorem emits_request {r : Request} (h : validRequest r = true) :
    Emits (fmt_request r) (requestToSource r) := by
  simp only [validRequest, Bool.and_eq_true] at h
  obtain ⟨⟨⟨⟨⟨⟨⟨h1, h2⟩, h3⟩, h4⟩, h5⟩, h6⟩, h7⟩, h8⟩ := h
  have hbody : Emits
      (match r.body with
        | some body => fmt_body body
        | none => [])
      (match r.body with
        | some b => bodyToSource b
        | none => []) := by
    cases hb : r.body with
    | none => exact Emits.nil
    | some body =>
        rw [hb] at h8
        exact emits_body h8
  have := (((((((((((emits_span_open (("request").data)).append
      (emits_lts h1)).append (emits_space h2)).append
      (emits_method h3)).append (emits_space h4)).append
      (emits_span_esc (("url").data) r.url.source)).append
      (emits_lt h5)).append
      (emits_emitAll (fun x hx => emits_kv hx) h6)).append
      (emits_emitAll (fun x hx => emits_section hx) h7)).append
      hbody).append emits_span_close)
  simpa [fmt_request, requestToSource, List.append_assoc] using this

theorem emits_response {r : Response} (h : validResponse r = true) :
    Emits (fmt_response r) (responseToSource r) := by
  simp only [validResponse, Bool.and_eq_true] at h
  obtain ⟨⟨⟨⟨⟨⟨⟨⟨h1, h2⟩, h3⟩, h4⟩, h5⟩, h6⟩, h7⟩, h8⟩, h9⟩ := h
  have hbody : Emits
      (match r.body with
        | some body => fmt_body body
        | none => [])
      (match r.body with
        | some b => bodyToSource b
        | none => []) := by
    cases hb : r.body with
    | none => exact Emits.nil
    | some body =>
        rw [hb] at h9
        exact emits_body h9
  have := (((((((((((emits_span_open (("response").data)).append
      (emits_lts h1)).append (emits_space h2)).append
      (emits_version h3)).append (emits_space h4)).append
      (emits_status h5)).append (emits_lt h6)).append
      (emits_emitAll (fun x hx => emits_kv hx) h7)).append
      (emits_emitAll (fun x hx => emits_section hx) h8)).append
      hbody).append emits_span_close)
  simpa [fmt_response, responseToSource, List.append_assoc] using this

theorem emits_entry {e : Entry} (h : validEntry e = true) :
    Emits (fmt_entry e) (entryToSource e) := by
  simp only [validEntry, Bool.and_eq_true] at h
  obtain ⟨h1, h2⟩ := h
  have hresp : Emits
      (match e.response with
        | some response => fmt_response response
        | none => [])
      (match e.response with
        | some r => responseToSource r
        | none => []) := by
    cases hr : e.response with
    | none => exact Emits.nil
    | some response =>
        rw [hr] at h2
        exact emits_response h2
  have := (((emits_span_open (("entry").data)).append
      (emits_request h1)).append hresp).append emits_span_close
  simpa [fmt_entry, entryToSource, List.append_assoc] using this

theorem emits_pre_open (cls : Str) : Emits (fmt_pre_open cls) [] :=
  Emits.markup _

theorem emits_pre_close : Emits fmt_pre_close [] :=
  Emits.markup _

theorem emits_hurl_file {f : HurlFile} (h : validHurlFile f = true) :
    Emits (fmt_hurl_file f) (hurlFileToSource f) := by
  simp only [validHurlFile, Bool.and_eq_true] at h
  obtain ⟨h1, h2⟩ := h
  have := (((emits_pre_open (("language-hurl").data)).append
      (emits_emitAll (fun x hx => emits_entry hx) h1)).append
      ((emits_lts h2).append emits_pre_close))
  simpa [fmt_hurl_file, hurlFileToSource, List.append_assoc] using this

/-!
Further facts about `escape_xml` used by the escaping claims.
-/

theorem escMap_length_ge (s : Str) : s.length ≤ (escMap s).length := by
  induction s with
  | nil => simp [escMap]
  | cons c r ih =>
    have hc : 1 ≤ (esc1 c).length := by
      unfold esc1
      split <;> try simp
      split <;> try simp
      split <;> simp
    simp only [escMap, List.length_cons, List.length_append]
    omega

theorem escMap_length_gt {s : Str} (h : '&' ∈ s) :
    s.length < (escMap s).length := by
  induction s with
  | nil => cases h
  | cons c r ih =>
    rcases List.mem_cons.mp h with hc | hc
    · have : (esc1 c).length = 5 := by
        rw [← hc]
        decide
      have hr := escMap_length_ge r
      simp only [escMap, List.length_cons, List.length_append]
      omega
    · have := ih hc
      have hc1 : 1 ≤ (esc1 c).length := by
        unfold esc1
        split <;> try simp
        split <;> try simp
        split <;> simp
      simp only [escMap, List.length_cons, List.length_append]
      omega

theorem amp_mem_escMap {s : Str}
    (h : '&' ∈ s ∨ '<' ∈ s ∨ '>' ∈ s) : '&' ∈ escMap s := by
  induction s with
  | nil => simp at h
  | cons c r ih =>
    simp only [List.mem_cons] at h
    by_cases hc : c = '&' ∨ c = '<' ∨ c = '>'
    · have hmem : '&' ∈ esc1 c := by
        rcases hc with h | h | h <;> rw [h] <;> decide
      simp only [escMap, List.mem_append]
      exact Or.inl hmem
    · push_neg at hc
      obtain ⟨hc1, hc2, hc3⟩ := hc
      have hr : '&' ∈ r ∨ '<' ∈ r ∨ '>' ∈ r := by
        rcases h with (h | h) | (h | h) | (h | h)
        · exact absurd h.symm hc1
        · exact Or.inl h
        · exact absurd h.symm hc2
        · exact Or.inr (Or.inl h)
        · exact absurd h.symm hc3
        · exact Or.inr (Or.inr h)
      simp only [escMap, List.mem_append]
      exact Or.inr (ih hr)

theorem escMap_id_of {s : Str}
    (h : ∀ c ∈ s, c ≠ '&' ∧ c ≠ '<' ∧ c ≠ '>') : escMap s = s := by
  induction s with
  | nil => rfl
  | cons c r ih =>
    obtain ⟨h1, h2, h3⟩ := h c (by simp)
    have hr := ih (fun x hx => h x (by simp [hx]))
    simp [escMap, esc1, h1, h2, h3, hr]

theorem escape_xml_ne_self_of_amp {s : Str} (h : '&' ∈ s) :
    escape_xml s ≠ s := by
  intro heq
  have hlen := escMap_length_gt h
  rw [escape_xml_eq_escMap] at heq
  rw [heq] at hlen
  omega

/-!
Sample documents used as concrete inputs for the claims.
-/

/-- A line terminator carrying a single newline. -/
def sampleLt : LineTerminator := ⟨⟨[]⟩, none, ⟨("\n").data⟩⟩

/-- A minimal request: `GET http://a` with one newline. -/
def sampleRequest : Request :=
  ⟨[], ⟨[]⟩, ⟨("GET").data⟩, ⟨(" ").data⟩,
    ⟨("http://a").data, ("http://a").data⟩, sampleLt, [], [], none⟩

/-- A minimal valid document: one entry, no response. -/
def sampleFile : HurlFile := ⟨[⟨sampleRequest, none⟩], []⟩

/-- An assert line `body matches /&amp;/`: the regex source text contains an
entity-shaped substring and is emitted without escaping. -/
def cxAssert : Assert :=
  ⟨[], ⟨[]⟩, ⟨QueryValue.Body⟩, [], ⟨(" ").data⟩,
    ⟨false, ⟨[]⟩,
      ⟨PredicateFuncValue.Match ⟨(" ").data⟩
        (PredicateValue.regex ⟨("/&amp;/").data⟩)⟩⟩,
    sampleLt⟩

/-- A response `HTTP 200` with an `[Asserts]` section holding `cxAssert`. -/
def cxResponse : Response :=
  ⟨[], ⟨[]⟩, ⟨("HTTP").data⟩, ⟨(" ").data⟩, ⟨("200").data⟩, sampleLt, [],
    [⟨[], ⟨[]⟩, sampleLt, SectionValue.Asserts [cxAssert]⟩], none⟩

/-- A parser-producible document whose assert regex spells `&amp;`. -/
def cxFile : HurlFile := ⟨[⟨sampleRequest, some cxResponse⟩], []⟩

/-- C1 (counterexample): the round-trip claim fails as stated: for the
concrete document `cxFile` (a parser-producible tree containing the assert
`body matches /&amp;/`), stripping all markup from `fmt_hurl_file`'s output
and reversing the escaping transform does not reproduce the document's
source: the regex is emitted unescaped, so its `&amp;` collapses to `&`. -/
theorem C1_counterexample :
    unescape (stripFrags (fmt_hurl_file cxFile)) ≠ hurlFileToSource cxFile :=
  by decide

/-- C1 (amended): round-trip fidelity holds for every valid document tree
whose raw-emitted fragments are ampersand-free: stripping all markup tags
from the output of `fmt_hurl_file` and reversing the escaping transform
yields exactly the tree's original source text. -/
theorem C1_round_trip (f : HurlFile) (h : validHurlFile f = true) :
    unescape (stripFrags (fmt_hurl_file f)) = hurlFileToSource f :=
  (emits_hurl_file h).out

/-- C1 (witness): the round-trip theorem applied to the concrete valid
document `sampleFile`. -/
theorem C1_round_trip_witness :
    validHurlFile sampleFile = true ∧
      unescape (stripFrags (fmt_hurl_file sampleFile)) =
        hurlFileToSource sampleFile :=
  ⟨by decide, C1_round_trip sampleFile (by decide)⟩

/-- C2: `escape_xml` maps each character independently — `&` to `&amp;`,
`<` to `&lt;`, `>` to `&gt;`, every other character (quotes and non-ASCII
included) to itself — and is the identity on strings containing none of
`&`, `<`, `>`. -/
theorem C2_escape_xml_spec (s : Str) :
    escape_xml s =
      s.flatMap (fun c =>
        if c = '&' then ("&amp;").data
        else if c = '<' then ("&lt;").data
        else if c = '>' then ("&gt;").data
        else [c]) ∧
    ((∀ c ∈ s, c ≠ '&' ∧ c ≠ '<' ∧ c ≠ '>') → escape_xml s = s) := by
  constructor
  · rw [escape_xml_eq_escMap]
    induction s with
    | nil => rfl
    | cons c r ih => simp [escMap, esc1, ih]
  · intro h
    rw [escape_xml_eq_escMap]
    exact escMap_id_of h

/-- C2 (witness): `escape_xml` is the identity on `hello`. -/
theorem C2_escape_xml_spec_witness :
    escape_xml (("hello").data) = ("hello").data :=
  (C2_escape_xml_spec (("hello").data)).2 (by decide)

/-- C3: `escape_xml` is not idempotent on escaping-relevant input: whenever
the string contains one of `&`, `<`, `>`, a second application changes the
result again; on strings free of those characters both applications are the
identity. -/
theorem C3_escape_not_idempotent (x : Str) :
    (('&' ∈ x ∨ '<' ∈ x ∨ '>' ∈ x) →
      escape_xml (escape_xml x) ≠ escape_xml x) ∧
    ((∀ c ∈ x, c ≠ '&' ∧ c ≠ '<' ∧ c ≠ '>') →
      escape_xml (escape_xml x) = x ∧ escape_xml x = x) := by
  constructor
  · intro h
    have hamp : '&' ∈ escape_xml x := by
      rw [escape_xml_eq_escMap]
      exact amp_mem_escMap h
    exact escape_xml_ne_self_of_amp hamp
  · intro h
    have hid : escape_xml x = x := by
      rw [escape_xml_eq_escMap]
      exact escMap_id_of h
    rw [hid]
    exact ⟨hid, rfl⟩

/-- C3 (witness): double escaping `a&b` differs from escaping it once. -/
theorem C3_escape_not_idempotent_witness :
    escape_xml (escape_xml (("a&b").data)) ≠ escape_xml (("a&b").data) :=
  (C3_escape_not_idempotent (("a&b").data)).1 (by decide)

namespace Runner

/-!
The to-float coercion filter from `packages/hurl/src/runner/filter/to_float.rs`.
The runner's value model and the `f64` machinery live outside the rendered
file: floating-point numbers are modelled as rationals, the integer-to-float
widening `v as f64` as the exact cast into the rationals, and Rust's
`str::parse::<f64>` as a parser of finite decimal forms.
-/

/-- A position in the source file (Rust `Pos`). -/
structure Pos where
  line : Nat
  column : Nat
deriving DecidableEq

/-- Rust `SourceInfo`; `stop` is the Rust field `end`. -/
structure SourceInfo where
  start : Pos
  stop : Pos
deriving DecidableEq

/-- Modelled from the spec: the runner's numeric values — floating-point
(here: rationals) or integral (Rust `runner::Number`, outside the rendered
file). -/
inductive Number where
  | Float (q : Rat)
  | Integer (n : Int)
deriving DecidableEq

/-- Modelled from the spec: the runner's value family, restricted to the
variants the coercion filter distinguishes — numbers, text, and (as the
representative non-numeric, non-textual values of the catch-all arm)
booleans and null (Rust `runner::Value`, outside the rendered file). -/
inductive Value where
  | Number (n : Number)
  | String (s : Str)
  | Bool (b : Bool)
  | Null
deriving DecidableEq

/-- Modelled from the spec: a value's display form, carried by the
invalid-input error — `string <...>` for text, `bool <...>` for booleans
(`Value::display`, outside the rendered file). -/
def Value.display : Value → Str
  | .Number (.Float _) => ("float").data
  | .Number (.Integer _) => ("int").data
  | .String s => ("string <").data ++ s ++ ['>']
  | .Bool b => ("bool <").data ++ boolString b ++ ['>']
  | .Null => ("null").data

/-- The runner error kind raised by the filter (Rust
`RunnerError::FilterInvalidInput`). -/
inductive RunnerError where
  | FilterInvalidInput (value : Str)
deriving DecidableEq

/-- Rust `Error` as built by `Error::new(source_info, inner, assert)`. -/
structure Error where
  source_info : SourceInfo
  inner : RunnerError
  assert : Bool
deriving DecidableEq

deriving instance DecidableEq for Except

/-- Numeric value of a digit string. -/
def digitsToNat : Str → Nat :=
  List.foldl (fun acc c => 10 * acc + (c.toNat - 48)) 0

/-- An optional leading sign. -/
def parseSign : Str → Int × Str
  | '+' :: r => (1, r)
  | '-' :: r => (-1, r)
  | s => (1, s)

/-- The rational `sg * d * 10 ^ k` for an integer exponent `k`, built with
`mkRat` so it evaluates by kernel reduction. -/
def ratOfDigits (sg : Int) (d : Nat) (k : Int) : Rat :=
  if 0 ≤ k then mkRat (sg * d * (10 : Int) ^ k.toNat) 1
  else mkRat (sg * d) ((10 : Nat) ^ (-k).toNat)

/-- Digits with an optional fractional part; fails when no digit at all is
present; returns the combined digit value, the fractional length, and the
unconsumed remainder. -/
def parseMantissa (s : Str) : Option (Nat × Nat × Str) :=
  let ip := s.takeWhile Char.isDigit
  let r1 := s.dropWhile Char.isDigit
  match r1 with
  | '.' :: r =>
      let fp := r.takeWhile Char.isDigit
      let r2 := r.dropWhile Char.isDigit
      if ip.length + fp.length = 0 then none
      else some (digitsToNat (ip ++ fp), fp.length, r2)
  | _ =>
      if ip.length = 0 then none else some (digitsToNat ip, 0, r1)

/-- A signed, non-empty digit string consuming the whole input. -/
def parseSignedDigits (s : Str) : Option Int :=
  let sg := (parseSign s).1
  let s1 := (parseSign s).2
  let d := s1.takeWhile Char.isDigit
  let r := s1.dropWhile Char.isDigit
  if d.length = 0 ∨ r ≠ [] then none else some (sg * (digitsToNat d : Int))

/-- An optional exponent part consuming the whole remainder. -/
def parseExpPart : Str → Option Int
  | [] => some 0
  | 'e' :: r => parseSignedDigits r
  | 'E' :: r => parseSignedDigits r
  | _ => none

/-- Modelled from the spec: Rust `str::parse::<f64>` (an external
collaborator), restricted to finite decimal forms
`[+-]? digits [. digits]? [(e|E) [+-]? digits]?` (also `.digits` and
`digits.`); the special spellings `inf`/`infinity`/`nan` are outside the
model. -/
def parseF64 (s : Str) : Option Rat :=
  let sg := (parseSign s).1
  let s1 := (parseSign s).2
  match parseMantissa s1 with
  | none => none
  | some (d, fl, rest) =>
      match parseExpPart rest with
      | none => none
      | some e => some (ratOfDigits sg d (e - (fl : Int)))

/-- `eval_to_float` from `to_float.rs`: pass floats through, widen
integers, parse strings, and fail with `FilterInvalidInput` carrying the
value's display form otherwise. -/
def eval_to_float (value : Value) (source_info : SourceInfo)
    (assert : Bool) : Except Error (Option Value) :=
  match value with
  | .Number (.Float v) => .ok (some (.Number (.Float v)))
  | .Number (.Integer v) => .ok (some (.Number (.Float (mkRat v 1))))
  | .String v =>
      match parseF64 v with
      | some f => .ok (some (.Number (.Float f)))
      | none =>
          .error (Error.mk source_info
            (RunnerError.FilterInvalidInput (Value.display (.String v)))
            assert)
  | v =>
      .error (Error.mk source_info
        (RunnerError.FilterInvalidInput (Value.display v)) assert)

example :
    eval_to_float (.String (("3.1415").data)) ⟨⟨1, 1⟩, ⟨1, 1⟩⟩ false =
      .ok (some (.Number (.Float (mkRat 31415 10000)))) := by decide

example :
    eval_to_float (.String (("3x.1415").data)) ⟨⟨1, 1⟩, ⟨1, 1⟩⟩ false =
      .error (Error.mk ⟨⟨1, 1⟩, ⟨1, 1⟩⟩
        (RunnerError.FilterInvalidInput (("string <3x.1415>").data))
        false) := by decide

/-- C4: `eval_to_float` passes floats through, widens integers, parses
parseable strings, and errs with `FilterInvalidInput` carrying the value's
display form exactly on non-parseable strings and non-numeric, non-textual
values; concretely, `3.1415` parses to `3.1415`, `3x.1415` fails with label
`string <3x.1415>`, and `true` fails with label `bool <true>`. -/
theorem C4_eval_to_float_spec :
    (∀ q si a, eval_to_float (.Number (.Float q)) si a =
      .ok (some (.Number (.Float q)))) ∧
    (∀ n si a, eval_to_float (.Number (.Integer n)) si a =
      .ok (some (.Number (.Float (mkRat n 1))))) ∧
    (∀ s si a f, parseF64 s = some f →
      eval_to_float (.String s) si a = .ok (some (.Number (.Float f)))) ∧
    (∀ s si a, parseF64 s = none →
      eval_to_float (.String s) si a =
        .error (Error.mk si
          (RunnerError.FilterInvalidInput
            (("string <").data ++ s ++ ['>'])) a)) ∧
    (∀ b si a, eval_to_float (.Bool b) si a =
      .error (Error.mk si
        (RunnerError.FilterInvalidInput
          (("bool <").data ++ boolString b ++ ['>'])) a)) ∧
    parseF64 (("3.1415").data) = some (mkRat 31415 10000) ∧
    parseF64 (("3x.1415").data) = none ∧
    Value.display (.String (("3x.1415").data)) =
      ("string <3x.1415>").data ∧
    Value.display (.Bool true) = ("bool <true>").data ∧
    (∀ v si a, (∃ e, eval_to_float v si a = .error e) ↔
      ((∃ s, v = .String s ∧ parseF64 s = none) ∨
        ((∀ n, v ≠ .Number n) ∧ (∀ s, v ≠ .String s)))) := by
  refine ⟨fun q si a => rfl, fun n si a => rfl, ?_, ?_, fun b si a => rfl,
    by decide, by decide, by decide, by decide, ?_⟩
  · intro s si a f hf
    simp [eval_to_float, hf]
  · intro s si a hf
    simp only [eval_to_float, hf]
    rfl
  · intro v si a
    constructor
    · intro ⟨e, he⟩
      cases v with
      | Number n =>
          cases n <;> simp [eval_to_float] at he
      | String s =>
          left
          refine ⟨s, rfl, ?_⟩
          cases hp : parseF64 s with
          | none => rfl
          | some f => simp [eval_to_float, hp] at he
      | Bool b => right; exact ⟨fun n => by simp, fun s => by simp⟩
      | Null => right; exact ⟨fun n => by simp, fun s => by simp⟩
    · intro h
      rcases h with ⟨s, rfl, hp⟩ | ⟨hn, hs⟩
      · refine ⟨Error.mk si
          (RunnerError.FilterInvalidInput (Value.display (.String s))) a, ?_⟩
        simp [eval_to_float, hp]
      · cases v with
        | Number n => exact absurd rfl (hn n)
        | String s => exact absurd rfl (hs s)
        | Bool b => exact ⟨_, rfl⟩
        | Null => exact ⟨_, rfl⟩

/-- C4 (witness): the parse-success case applied to the concrete textual
value `3.1415`. -/
theorem C4_eval_to_float_spec_witness :
    eval_to_float (.String (("3.1415").data)) ⟨⟨1, 1⟩, ⟨1, 1⟩⟩ false =
      .ok (some (.Number (.Float (mkRat 31415 10000)))) :=
  C4_eval_to_float_spec.2.2.1 (("3.1415").data) ⟨⟨1, 1⟩, ⟨1, 1⟩⟩ false
    (mkRat 31415 10000) (by decide)

end Runner

/-!
Claims about individual emitters.
-/

theorem stripFrags_fmt_space (w : Whitespace) :
    stripFrags (fmt_space w) = w.value := by
  unfold fmt_space
  by_cases h : w.value = []
  · simp [h, stripFrags]
  · simp [h, stripFrags]

theorem textsNil : ∀ f ∈ ([] : List Frag), ∃ s, f = Frag.text s := by
  intro f hf
  cases hf

theorem textsCons {s : Str} {b : List Frag}
    (hb : ∀ f ∈ b, ∃ u, f = Frag.text u) :
    ∀ f ∈ Frag.text s :: b, ∃ u, f = Frag.text u := by
  intro f hf
  rcases List.mem_cons.mp hf with h | h
  · exact ⟨s, h⟩
  · exact hb f h

theorem textsAppend {a b : List Frag}
    (ha : ∀ f ∈ a, ∃ s, f = Frag.text s)
    (hb : ∀ f ∈ b, ∃ s, f = Frag.text s) :
    ∀ f ∈ a ++ b, ∃ s, f = Frag.text s := by
  intro f hf
  rcases List.mem_append.mp hf with h | h
  · exact ha f h
  · exact hb f h

theorem textsSpace (w : Whitespace) :
    ∀ f ∈ fmt_space w, ∃ s, f = Frag.text s := by
  unfold fmt_space
  split
  · exact textsNil
  · exact textsCons textsNil

/-- A concrete capture `x: status redact` with the redact flag set. -/
def c5Capture : Capture :=
  ⟨[], ⟨[]⟩, ⟨("x").data, ("x").data⟩, ⟨[]⟩, ⟨(" ").data⟩,
    ⟨QueryValue.Status⟩, [], ⟨(" ").data⟩, true, sampleLt⟩

/-- C5 (counterexample): the claim says the `redact` token is emitted
unwrapped; in fact `fmt_capture` renders it inside a `string`-classified
span: on the concrete capture `c5Capture` the output wraps `redact` in
`<span class="string">...</span>`, and is not the claim's predicted output
with a bare `redact` token. -/
theorem C5_counterexample :
    renderFrags (fmt_capture c5Capture) =
      ("<span class=\"string\">x</span>: <span class=\"query-type\">status</span> <span class=\"string\">redact</span>\n").data ∧
    renderFrags (fmt_capture c5Capture) ≠
      ("<span class=\"string\">x</span>: <span class=\"query-type\">status</span> redact\n").data := by
  constructor
  · decide
  · decide

/-- C5 (amended): for every capture with the redact flag set, `fmt_capture`
emits the token `redact` wrapped in a span of class `string`, positioned
after the filter chain and the following whitespace and before the final
line terminator; when the flag is false no such token is emitted. -/
theorem C5_redact_span (c : Capture) :
    (c.redact = true →
      fmt_capture c =
        fmt_lts c.line_terminators ++ fmt_space c.space0 ++
          fmt_template c.name ++ fmt_space c.space1 ++ [Frag.text [':']] ++
          fmt_space c.space2 ++ fmt_query c.query ++
          emitAll (fun sf => fmt_space sf.1 ++ fmt_filter sf.2) c.filters ++
          fmt_space c.space3 ++
          (fmt_span_open (("string").data) ++
            [Frag.text (("redact").data)] ++ fmt_span_close) ++
          fmt_lt c.line_terminator0) ∧
    (c.redact = false →
      fmt_capture c =
        fmt_lts c.line_terminators ++ fmt_space c.space0 ++
          fmt_template c.name ++ fmt_space c.space1 ++ [Frag.text [':']] ++
          fmt_space c.space2 ++ fmt_query c.query ++
          emitAll (fun sf => fmt_space sf.1 ++ fmt_filter sf.2) c.filters ++
          fmt_space c.space3 ++ fmt_lt c.line_terminator0) := by
  constructor
  · intro hr
    simp [fmt_capture, hr, fmt_string, fmt_span, List.append_assoc]
  · intro hr
    simp [fmt_capture, hr, List.append_assoc]

/-- C5 (witness): the amended theorem applied to the concrete capture
`c5Capture`, whose redact flag is set. -/
theorem C5_redact_span_witness :
    fmt_capture c5Capture =
      fmt_lts c5Capture.line_terminators ++ fmt_space c5Capture.space0 ++
        fmt_template c5Capture.name ++ fmt_space c5Capture.space1 ++
        [Frag.text [':']] ++ fmt_space c5Capture.space2 ++
        fmt_query c5Capture.query ++
        emitAll (fun sf => fmt_space sf.1 ++ fmt_filter sf.2)
          c5Capture.filters ++
        fmt_space c5Capture.space3 ++
        (fmt_span_open (("string").data) ++
          [Frag.text (("redact").data)] ++ fmt_span_close) ++
        fmt_lt c5Capture.line_terminator0 :=
  (C5_redact_span c5Capture).1 rfl

theorem count_replaceChar_ne {c b : Char} {r : Str} (hc : c ∉ r)
    (hcb : c ≠ b) (s : Str) : (replaceChar b r s).count c = s.count c := by
  induction s with
  | nil => rfl
  | cons x xs ih =>
    by_cases hx : x = b
    · have hr : r.count c = 0 := List.count_eq_zero.mpr hc
      have hbc : ¬b = c := fun h => hcb h.symm
      have hx' : x ≠ c := by
        rw [hx]
        exact fun h => hcb h.symm
      simp [replaceChar, hx, List.count_append, hr, ih, List.count_cons,
        hx', hbc]
    · simp [replaceChar, hx, List.count_append, ih, List.count_cons]

/-- C6: `fmt_filename` emits the template's decoded text with every space
replaced by a backslash-space pair, wrapped in a span of class `filename`,
and applies no XML entity escaping: occurrences of `&`, `<`, `>` are
emitted unchanged. -/
theorem C6_filename_spec (t : Template) :
    fmt_filename t =
      [Frag.markup ((("<span class=\"").data) ++ ("filename").data ++
          (("\">").data)),
        Frag.text (replaceChar ' ' (("\\ ").data) t.value),
        Frag.markup (("</span>").data)] ∧
    stripFrags (fmt_filename t) = replaceChar ' ' (("\\ ").data) t.value ∧
    (stripFrags (fmt_filename t)).count '&' = t.value.count '&' ∧
    (stripFrags (fmt_filename t)).count '<' = t.value.count '<' ∧
    (stripFrags (fmt_filename t)).count '>' = t.value.count '>' := by
  have h1 : fmt_filename t =
      [Frag.markup ((("<span class=\"").data) ++ ("filename").data ++
          (("\">").data)),
        Frag.text (replaceChar ' ' (("\\ ").data) t.value),
        Frag.markup (("</span>").data)] := by
    simp [fmt_filename, fmt_span_open, fmt_span_close]
  have h2 : stripFrags (fmt_filename t) =
      replaceChar ' ' (("\\ ").data) t.value := by
    rw [h1]
    simp [stripFrags]
  refine ⟨h1, h2, ?_, ?_, ?_⟩ <;> rw [h2]
  · exact count_replaceChar_ne (by decide) (by decide) t.value
  · exact count_replaceChar_ne (by decide) (by decide) t.value
  · exact count_replaceChar_ne (by decide) (by decide) t.value

/-- A line terminator whose newline text is empty. -/
def c7Lt : LineTerminator := ⟨⟨[]⟩, none, ⟨[]⟩⟩

/-- C7 (counterexample): the claim says the sequence emitter's output
differs from the mapped single-node emitter exactly on sequences containing
an empty-newline member; on the concrete one-element sequence `[c7Lt]`
(empty newline) both produce identical output — pushing an empty newline
emits nothing, so no difference is observable. -/
theorem C7_counterexample :
    renderFrags (fmt_lts [c7Lt]) = renderFrags (fmt_lt c7Lt) ∧
    stripFrags (fmt_lts [c7Lt]) = stripFrags (fmt_lt c7Lt) := by
  constructor
  · decide
  · decide

/-- C7 (amended): `fmt_lts` produces exactly the same output text as
applying `fmt_lt` to each member in order, for every sequence: the
empty-newline test only skips pushing an empty string, which never changes
the buffer. -/
theorem C7_lts_eq (lts : List LineTerminator) :
    renderFrags (fmt_lts lts) = renderFrags (lts.flatMap fmt_lt) ∧
    stripFrags (fmt_lts lts) = stripFrags (lts.flatMap fmt_lt) := by
  induction lts with
  | nil => exact ⟨rfl, rfl⟩
  | cons lt rest ih =>
    have hr : renderFrags
        (if lt.newline.value = [] then []
          else [Frag.text lt.newline.value]) =
        renderFrags [Frag.text lt.newline.value] := by
      by_cases h : lt.newline.value = []
      · simp [h, renderFrags, fragStr]
      · rw [if_neg h]
    have hs : stripFrags
        (if lt.newline.value = [] then []
          else [Frag.text lt.newline.value]) =
        stripFrags [Frag.text lt.newline.value] := by
      by_cases h : lt.newline.value = []
      · simp [h, stripFrags]
      · rw [if_neg h]
    constructor
    · simp only [fmt_lts, emitAll, List.flatMap_cons, renderFrags_append]
      rw [show fmt_lts rest = emitAll
        (fun lt =>
          fmt_space lt.space0 ++
            (match lt.comment with
              | some v => fmt_comment v
              | none => []) ++
            (if lt.newline.value = [] then []
              else [Frag.text lt.newline.value]))
        rest from rfl] at ih
      simp only [renderFrags_append, hr] at *
      rw [ih.1]
      simp [fmt_lt, renderFrags_append, List.append_assoc]
    · simp only [fmt_lts, emitAll, List.flatMap_cons, stripFrags_append]
      rw [show fmt_lts rest = emitAll
        (fun lt =>
          fmt_space lt.space0 ++
            (match lt.comment with
              | some v => fmt_comment v
              | none => []) ++
            (if lt.newline.value = [] then []
              else [Frag.text lt.newline.value]))
        rest from rfl] at ih
      simp only [stripFrags_append, hs] at *
      rw [ih.2]
      simp [fmt_lt, stripFrags_append, List.append_assoc]

/-- C8: `Count.infinite` renders as the literal number `-1` inside a span
of class `number` (`<span class="number">-1</span>`); `Count.finite n`
renders `n`'s decimal digits in the same span class; and each option kind
carrying a count option (max-redirs, repeat, retry) dispatches its value to
`fmt_count_option`. -/
theorem C8_count_spec :
    renderFrags (fmt_count Count.infinite) =
      ("<span class=\"number\">-1</span>").data ∧
    (∀ n, renderFrags (fmt_count (Count.finite n)) =
      ("<span class=\"number\">").data ++ natRepr n ++ ("</span>").data) ∧
    (∀ co, fmt_option_kind_value (OptionKind.MaxRedirect co) =
        fmt_count_option co ∧
      fmt_option_kind_value (OptionKind.Repeat co) = fmt_count_option co ∧
      fmt_option_kind_value (OptionKind.Retry co) = fmt_count_option co) := by
  refine ⟨by decide, ?_, fun co => ⟨rfl, rfl, rfl⟩⟩
  intro n
  simp only [fmt_count, fmt_number, fmt_span, fmt_span_open, fmt_span_close,
    renderFrags_append, renderFrags, fragStr, List.append_nil,
    List.append_assoc, List.cons_append, List.nil_append]

/-- C9: `fmt_cookie_path` emits, inside a single span of class `string`, a
synthesized quoted form: a double quote, the cookie name's source text,
then — only when an attribute is present — `[`, the attribute's leading
whitespace, name and trailing whitespace, `]`, then a closing double quote;
with no attribute the text between the quotes is exactly the name. -/
theorem C9_cookie_path_spec (cp : CookiePath) :
    stripFrags (fmt_cookie_path cp) =
      '"' :: cp.name.source ++
        (match cp.attr with
          | some a =>
              '[' :: a.space0.value ++ a.name ++ a.space1.value ++ [']']
          | none => []) ++
        ['"'] ∧
    (∃ inner, fmt_cookie_path cp =
        Frag.markup ((("<span class=\"").data) ++ ("string").data ++
            (("\">").data)) :: inner ++
          [Frag.markup (("</span>").data)] ∧
        ∀ f ∈ inner, ∃ s, f = Frag.text s) := by
  obtain ⟨nameT, attr⟩ := cp
  cases attr with
  | none =>
      constructor
      · simp [fmt_cookie_path, fmt_span_open, fmt_span_close, stripFrags,
          stripFrags_append, List.append_assoc]
      · refine ⟨[Frag.text ['"'], Frag.text nameT.source,
          Frag.text ['"']], ?_, ?_⟩
        · simp [fmt_cookie_path, fmt_span_open, fmt_span_close]
        · exact textsCons (textsCons (textsCons textsNil))
  | some a =>
      constructor
      · simp [fmt_cookie_path, fmt_span_open, fmt_span_close,
          fmt_cookie_attribute, stripFrags, stripFrags_append,
          stripFrags_fmt_space, List.append_assoc]
      · refine ⟨[Frag.text ['"'], Frag.text nameT.source,
          Frag.text ['[']] ++ fmt_space a.space0 ++ [Frag.text a.name] ++
          fmt_space a.space1 ++ [Frag.text [']'], Frag.text ['"']],
          ?_, ?_⟩
        · simp [fmt_cookie_path, fmt_span_open, fmt_span_close,
            fmt_cookie_attribute, List.append_assoc]
        · exact textsAppend (textsAppend (textsAppend (textsAppend
            (textsCons (textsCons (textsCons textsNil)))
            (textsSpace a.space0)) (textsCons textsNil))
            (textsSpace a.space1)) (textsCons (textsCons textsNil))

/-- A concrete `>`-predicate with a numeric payload. -/
def c10Pfv : PredicateFuncValue :=
  PredicateFuncValue.GreaterThan ⟨(" ").data⟩
    (PredicateValue.number ⟨("3").data⟩)

/-- C10 (counterexample): label fidelity fails as stated for predicate
functions: on the concrete greater-than predicate `c10Pfv` the rendered
`predicate-type` label text is the HTML-encoded `&gt;`, which differs from
the variant's grammar identifier `>`. -/
theorem C10_counterexample :
    fmt_predicate_func_value c10Pfv =
      [Frag.markup (("<span class=\"predicate-type\">").data),
        Frag.text (("&gt;").data),
        Frag.markup (("</span>").data),
        Frag.text ((" ").data),
        Frag.markup (("<span class=\"number\">").data),
        Frag.text (("3").data),
        Frag.markup (("</span>").data)] ∧
    ("&gt;").data ≠ predicateFuncIdentifier c10Pfv := by
  constructor
  · decide
  · decide

/-- Per-character characterization used for the label claim. -/
theorem encode_html_id_of {s : Str}
    (h : ∀ c ∈ s, c ≠ '<' ∧ c ≠ '>') : encode_html s = s := by
  rw [encode_html_eq_encMap]
  induction s with
  | nil => rfl
  | cons c r ih =>
    obtain ⟨h1, h2⟩ := h c (by simp)
    have hr := ih (fun x hx => h x (by simp [hx]))
    simp [encMap, enc1, h1, h2, hr]

/-- C10 (amended): every query and filter label is emitted first, inside
its classified span, and equals the variant's grammar identifier; every
predicate label is emitted first and equals the HTML-encoded identifier
(`encode_html`), which coincides with the identifier exactly when it
contains neither `<` nor `>`. -/
theorem C10_label_spec :
    (∀ qv : QueryValue, ∃ rest, fmt_query_value qv =
        Frag.markup ((("<span class=\"").data) ++ ("query-type").data ++
            (("\">").data)) ::
          Frag.text (queryIdentifier qv) ::
          Frag.markup (("</span>").data) :: rest) ∧
    (∀ fv : FilterValue, ∃ rest, fmt_filter_value fv =
        Frag.markup ((("<span class=\"").data) ++ ("filter-type").data ++
            (("\">").data)) ::
          Frag.text (filterIdentifier fv) ::
          Frag.markup (("</span>").data) :: rest) ∧
    (∀ pfv : PredicateFuncValue, ∃ rest, fmt_predicate_func_value pfv =
        Frag.markup ((("<span class=\"").data) ++
            ("predicate-type").data ++ (("\">").data)) ::
          Frag.text (encode_html (predicateFuncIdentifier pfv)) ::
          Frag.markup (("</span>").data) :: rest) ∧
    (∀ pfv : PredicateFuncValue,
      (∀ c ∈ predicateFuncIdentifier pfv, c ≠ '<' ∧ c ≠ '>') →
        encode_html (predicateFuncIdentifier pfv) =
          predicateFuncIdentifier pfv) := by
  refine ⟨?_, ?_, ?_, fun pfv h => encode_html_id_of h⟩
  · intro qv
    exact ⟨_, rfl⟩
  · intro fv
    exact ⟨_, rfl⟩
  · intro pfv
    exact ⟨_, rfl⟩

/-- C10 (witness): the encoded label of `isInteger` equals the identifier
itself, since it contains no angle bracket. -/
theorem C10_label_spec_witness :
    encode_html (predicateFuncIdentifier PredicateFuncValue.IsInteger) =
      predicateFuncIdentifier PredicateFuncValue.IsInteger :=
  C10_label_spec.2.2.2 PredicateFuncValue.IsInteger (by decide)

end Hurl
